import Mathlib

/-!
Verification development for the `todo_cli` program (`src/main.rs`).

Modelling conventions:
* Rust `String` / `&str` values are modelled as `List Char` (Unicode scalar
  values); Rust `str::contains` is byte-level substring search, which on valid
  UTF-8 coincides with scalar-level substring search (UTF-8 is
  self-synchronizing), so substring search is modelled on `List Char`.
* Rust `i16` is modelled as `Int`; where the 16-bit range matters it appears
  as an explicit hypothesis or an explicit `% 65536` two's-complement step.
* The backing file of a `TodoList` is modelled by its current contents
  (`file : List Char`); filesystem errors are not modelled, so the fallible
  file operations are modelled on their success path.
* `serde_json` serialization of `Vec<TodoItem>` is modelled by
  `serializeTodoList` (compact output, short escapes and `\u00XX` for control
  characters, exactly as `serde_json::to_string` emits) and deserialization by
  `deserialize` (object fields in any order, unknown fields skipped, surrogate
  pairs combined, duplicates and missing fields rejected, as the `serde`
  derive does; `serde_json`'s recursion-depth limit of 128 is not modelled —
  the model is more lenient there).
* `str::to_lowercase`, `char::is_whitespace` and `str::trim` are modelled
  with the Unicode 14.0 tables: the full lowercase mapping (including the
  multi-scalar special casings and the contextual final-sigma rule, via the
  `Cased` and `Case_Ignorable` properties) and the `White_Space` property.
* `std::collections::hash_map::DefaultHasher` is SipHash-1-3 with both keys
  zero; it is modelled bit-exactly by `siphash13` below, and the derived
  `Hash` for `TodoItem` feeds it `utf8(name) ++ [0xff] ++ utf8(content) ++
  [0xff] ++ le16(priority)` (each `str` hash appends `0xff`, `i16` hashes as
  its two native-endian bytes).
-/

deriving instance DecidableEq for Except

/-- A Rust string, as its list of Unicode scalar values. -/
abbrev RStr := List Char

/-- The `TodoItem` struct of `main.rs`: `name`, `content`, `priority : i16`. -/
structure TodoItem where
  name : RStr
  content : RStr
  priority : Int
  deriving DecidableEq

/-- The `TodoList` struct: the in-memory `buffer` and the backing file,
modelled by its current contents. -/
structure TodoList where
  buffer : List TodoItem
  file : RStr
  deriving DecidableEq

/-! ### SipHash-1-3 (`DefaultHasher` with zero keys), modelled over `Nat` -/

/-- 64-bit truncating addition. -/
def wadd (a b : Nat) : Nat := (a + b) % 2 ^ 64

/-- 64-bit left rotation (operands assumed `< 2 ^ 64`). -/
def rotl64 (x n : Nat) : Nat := ((x <<< n) % 2 ^ 64) ||| (x >>> (64 - n))

/-- The four 64-bit state words of SipHash. -/
structure SipState where
  v0 : Nat
  v1 : Nat
  v2 : Nat
  v3 : Nat

/-- One SipHash round. -/
def sipRound (s : SipState) : SipState :=
  let v0 := wadd s.v0 s.v1
  let v1 := rotl64 s.v1 13
  let v1 := v1 ^^^ v0
  let v0 := rotl64 v0 32
  let v2 := wadd s.v2 s.v3
  let v3 := rotl64 s.v3 16
  let v3 := v3 ^^^ v2
  let v0 := wadd v0 v3
  let v3 := rotl64 v3 21
  let v3 := v3 ^^^ v0
  let v2 := wadd v2 v1
  let v1 := rotl64 v1 17
  let v1 := v1 ^^^ v2
  let v2 := rotl64 v2 32
  ⟨v0, v1, v2, v3⟩

/-- Absorb one 64-bit message word (1 compression round for SipHash-1-3). -/
def sipCompress (s : SipState) (m : Nat) : SipState :=
  let s1 : SipState := ⟨s.v0, s.v1, s.v2, s.v3 ^^^ m⟩
  let s2 := sipRound s1
  ⟨s2.v0 ^^^ m, s2.v1, s2.v2, s2.v3⟩

/-- A little-endian 64-bit word from 8 bytes. -/
def leWord (b0 b1 b2 b3 b4 b5 b6 b7 : Nat) : Nat :=
  b0 + b1 * 2 ^ 8 + b2 * 2 ^ 16 + b3 * 2 ^ 24 + b4 * 2 ^ 32 + b5 * 2 ^ 40 +
    b6 * 2 ^ 48 + b7 * 2 ^ 56

/-- Little-endian value of a (short) byte list. -/
def leBytes : List Nat → Nat
  | [] => 0
  | b :: rest => b + 2 ^ 8 * leBytes rest

/-- Absorb all complete 8-byte blocks, returning the state and the tail. -/
def sipBlocks (s : SipState) : List Nat → SipState × List Nat
  | b0 :: b1 :: b2 :: b3 :: b4 :: b5 :: b6 :: b7 :: rest =>
      sipBlocks (sipCompress s (leWord b0 b1 b2 b3 b4 b5 b6 b7)) rest
  | rest => (s, rest)

/-- SipHash-1-3 of a byte string with both keys zero, exactly as Rust's
`DefaultHasher` computes it: 1 compression round per block, final block
carries `len % 256` in the top byte, `v2 ^= 0xff`, 3 finalization rounds. -/
def siphash13 (msg : List Nat) : Nat :=
  let s0 : SipState :=
    ⟨0x736f6d6570736575, 0x646f72616e646f6d, 0x6c7967656e657261, 0x7465646279746573⟩
  let st := sipBlocks s0 msg
  let b := (msg.length % 256) * 2 ^ 56 + leBytes st.2
  let s1 := sipCompress st.1 b
  let s2 : SipState := ⟨s1.v0, s1.v1, s1.v2 ^^^ 0xff, s1.v3⟩
  let s3 := sipRound (sipRound (sipRound s2))
  s3.v0 ^^^ s3.v1 ^^^ s3.v2 ^^^ s3.v3

/-- UTF-8 encoding of one Unicode scalar value. -/
def utf8EncodeChar (c : Char) : List Nat :=
  let n := c.toNat
  if n < 0x80 then [n]
  else if n < 0x800 then [0xC0 ||| (n >>> 6), 0x80 ||| (n &&& 0x3F)]
  else if n < 0x10000 then
    [0xE0 ||| (n >>> 12), 0x80 ||| ((n >>> 6) &&& 0x3F), 0x80 ||| (n &&& 0x3F)]
  else
    [0xF0 ||| (n >>> 18), 0x80 ||| ((n >>> 12) &&& 0x3F),
      0x80 ||| ((n >>> 6) &&& 0x3F), 0x80 ||| (n &&& 0x3F)]

/-- UTF-8 encoding of a string. -/
def utf8Encode (s : RStr) : List Nat := (s.map utf8EncodeChar).flatten

/-- The byte stream the derived `Hash` for `TodoItem` feeds the hasher:
each string as its UTF-8 bytes followed by `0xff`, then the `i16` priority
as its two little-endian two's-complement bytes. -/
def hashBytes (it : TodoItem) : List Nat :=
  utf8Encode it.name ++ [0xff] ++ utf8Encode it.content ++ [0xff] ++
    [(it.priority % 65536).toNat % 256, (it.priority % 65536).toNat / 256]

/-- `calculate_hash` of `main.rs`: `DefaultHasher` over the derived `Hash`. -/
def calculate_hash (it : TodoItem) : Nat := siphash13 (hashBytes it)

/-! ### Store operations (`impl TodoList`) -/

/-- `TodoList::add_item`: reject when some buffered item has the same
`calculate_hash`, otherwise push. Returns the Rust return value paired with
the updated list. -/
def TodoList.add_item (tl : TodoList) (item : TodoItem) : Bool × TodoList :=
  if tl.buffer.any (fun i => calculate_hash i == calculate_hash item) then
    (false, tl)
  else
    (true, { tl with buffer := tl.buffer ++ [item] })

/-- `Vec::swap_remove index`: the last element moves into slot `index` and the
vector shrinks by one (the model of an in-range call). -/
def swapRemove {α : Type} (l : List α) (index : Nat) : List α :=
  match l.getLast? with
  | some last => (l.set index last).dropLast
  | none => []

/-- `TodoList::del_by_name`: `position` of the first item whose `name` equals
the argument, then `swap_remove` it; no-op when there is no match. -/
def TodoList.del_by_name (tl : TodoList) (name : RStr) : TodoList :=
  match tl.buffer.findIdx? (fun item => item.name == name) with
  | some index => { tl with buffer := swapRemove tl.buffer index }
  | none => tl

/-- `TodoList::clear` (success path): truncate the file to zero bytes and
empty the in-memory buffer. -/
def TodoList.clear (tl : TodoList) : TodoList :=
  { tl with buffer := [], file := [] }

/-- Membership of a code point in a list of half-open ranges. -/
def inRanges : List (Nat × Nat) → Nat → Bool
  | [], _ => false
  | (lo, hi) :: rest, n => (lo ≤ n && n < hi) || inRanges rest n

/-- The `Cased` ranges of Unicode 14.0 (start, one-past-end), as Rust's
`unicode::Cased` uses for the final-sigma rule. -/
def casedRanges : List (Nat × Nat) :=
  [(65,91), (97,123), (170,171), (181,182), (186,187), (192,215), (216,247), (248,443), (444,448),
   (452,660), (661,697), (704,706), (736,741), (837,838), (880,884), (886,888), (890,894),
   (895,896), (902,903), (904,907), (908,909), (910,930), (931,1014), (1015,1154), (1162,1328),
   (1329,1367), (1376,1417), (4256,4294), (4295,4296), (4301,4302), (4304,4347), (4349,4352),
   (5024,5110), (5112,5118), (7296,7305), (7312,7355), (7357,7360), (7424,7616), (7680,7958),
   (7960,7966), (7968,8006), (8008,8014), (8016,8024), (8025,8026), (8027,8028), (8029,8030),
   (8031,8062), (8064,8117), (8118,8125), (8126,8127), (8130,8133), (8134,8141), (8144,8148),
   (8150,8156), (8160,8173), (8178,8181), (8182,8189), (8305,8306), (8319,8320), (8336,8349),
   (8450,8451), (8455,8456), (8458,8468), (8469,8470), (8473,8478), (8484,8485), (8486,8487),
   (8488,8489), (8490,8494), (8495,8501), (8505,8506), (8508,8512), (8517,8522), (8526,8527),
   (8544,8576), (8579,8581), (9398,9450), (11264,11493), (11499,11503), (11506,11508),
   (11520,11558), (11559,11560), (11565,11566), (42560,42606), (42624,42654), (42786,42888),
   (42891,42895), (42896,42955), (42960,42962), (42963,42964), (42965,42970), (42997,42999),
   (43000,43003), (43824,43867), (43868,43881), (43888,43968), (64256,64263), (64275,64280),
   (65313,65339), (65345,65371), (66560,66640), (66736,66772), (66776,66812), (66928,66939),
   (66940,66955), (66956,66963), (66964,66966), (66967,66978), (66979,66994), (66995,67002),
   (67003,67005), (67456,67457), (67459,67462), (67463,67505), (67506,67515), (68736,68787),
   (68800,68851), (71840,71904), (93760,93824), (119808,119893), (119894,119965), (119966,119968),
   (119970,119971), (119973,119975), (119977,119981), (119982,119994), (119995,119996),
   (119997,120004), (120005,120070), (120071,120075), (120077,120085), (120086,120093),
   (120094,120122), (120123,120127), (120128,120133), (120134,120135), (120138,120145),
   (120146,120486), (120488,120513), (120514,120539), (120540,120571), (120572,120597),
   (120598,120629), (120630,120655), (120656,120687), (120688,120713), (120714,120745),
   (120746,120771), (120772,120780), (122624,122634), (122635,122655), (125184,125252),
   (127280,127306), (127312,127338), (127344,127370)]

/-- The `Case_Ignorable` ranges of Unicode 14.0 (start, one-past-end). -/
def caseIgnorableRanges : List (Nat × Nat) :=
  [(39,40), (46,47), (58,59), (94,95), (96,97), (168,169), (173,174), (175,176), (180,181),
   (183,185), (688,880), (884,886), (890,891), (900,902), (903,904), (1155,1162), (1369,1370),
   (1375,1376), (1425,1470), (1471,1472), (1473,1475), (1476,1478), (1479,1480), (1524,1525),
   (1536,1542), (1552,1563), (1564,1565), (1600,1601), (1611,1632), (1648,1649), (1750,1758),
   (1759,1769), (1770,1774), (1807,1808), (1809,1810), (1840,1867), (1958,1969), (2027,2038),
   (2042,2043), (2045,2046), (2070,2094), (2137,2140), (2184,2185), (2192,2194), (2200,2208),
   (2249,2307), (2362,2363), (2364,2365), (2369,2377), (2381,2382), (2385,2392), (2402,2404),
   (2417,2418), (2433,2434), (2492,2493), (2497,2501), (2509,2510), (2530,2532), (2558,2559),
   (2561,2563), (2620,2621), (2625,2627), (2631,2633), (2635,2638), (2641,2642), (2672,2674),
   (2677,2678), (2689,2691), (2748,2749), (2753,2758), (2759,2761), (2765,2766), (2786,2788),
   (2810,2816), (2817,2818), (2876,2877), (2879,2880), (2881,2885), (2893,2894), (2901,2903),
   (2914,2916), (2946,2947), (3008,3009), (3021,3022), (3072,3073), (3076,3077), (3132,3133),
   (3134,3137), (3142,3145), (3146,3150), (3157,3159), (3170,3172), (3201,3202), (3260,3261),
   (3263,3264), (3270,3271), (3276,3278), (3298,3300), (3328,3330), (3387,3389), (3393,3397),
   (3405,3406), (3426,3428), (3457,3458), (3530,3531), (3538,3541), (3542,3543), (3633,3634),
   (3636,3643), (3654,3663), (3761,3762), (3764,3773), (3782,3783), (3784,3790), (3864,3866),
   (3893,3894), (3895,3896), (3897,3898), (3953,3967), (3968,3973), (3974,3976), (3981,3992),
   (3993,4029), (4038,4039), (4141,4145), (4146,4152), (4153,4155), (4157,4159), (4184,4186),
   (4190,4193), (4209,4213), (4226,4227), (4229,4231), (4237,4238), (4253,4254), (4348,4349),
   (4957,4960), (5906,5909), (5938,5940), (5970,5972), (6002,6004), (6068,6070), (6071,6078),
   (6086,6087), (6089,6100), (6103,6104), (6109,6110), (6155,6160), (6211,6212), (6277,6279),
   (6313,6314), (6432,6435), (6439,6441), (6450,6451), (6457,6460), (6679,6681), (6683,6684),
   (6742,6743), (6744,6751), (6752,6753), (6754,6755), (6757,6765), (6771,6781), (6783,6784),
   (6823,6824), (6832,6863), (6912,6916), (6964,6965), (6966,6971), (6972,6973), (6978,6979),
   (7019,7028), (7040,7042), (7074,7078), (7080,7082), (7083,7086), (7142,7143), (7144,7146),
   (7149,7150), (7151,7154), (7212,7220), (7222,7224), (7288,7294), (7376,7379), (7380,7393),
   (7394,7401), (7405,7406), (7412,7413), (7416,7418), (7468,7531), (7544,7545), (7579,7680),
   (8125,8126), (8127,8130), (8141,8144), (8157,8160), (8173,8176), (8189,8191), (8203,8208),
   (8216,8218), (8228,8229), (8231,8232), (8234,8239), (8288,8293), (8294,8304), (8305,8306),
   (8319,8320), (8336,8349), (8400,8433), (11388,11390), (11503,11506), (11631,11632),
   (11647,11648), (11744,11776), (11823,11824), (12293,12294), (12330,12334), (12337,12342),
   (12347,12348), (12441,12447), (12540,12543), (40981,40982), (42232,42238), (42508,42509),
   (42607,42611), (42612,42622), (42623,42624), (42652,42656), (42736,42738), (42752,42786),
   (42864,42865), (42888,42891), (42994,42997), (43000,43002), (43010,43011), (43014,43015),
   (43019,43020), (43045,43047), (43052,43053), (43204,43206), (43232,43250), (43263,43264),
   (43302,43310), (43335,43346), (43392,43395), (43443,43444), (43446,43450), (43452,43454),
   (43471,43472), (43493,43495), (43561,43567), (43569,43571), (43573,43575), (43587,43588),
   (43596,43597), (43632,43633), (43644,43645), (43696,43697), (43698,43701), (43703,43705),
   (43710,43712), (43713,43714), (43741,43742), (43756,43758), (43763,43765), (43766,43767),
   (43867,43872), (43881,43884), (44005,44006), (44008,44009), (44013,44014), (64286,64287),
   (64434,64451), (65024,65040), (65043,65044), (65056,65072), (65106,65107), (65109,65110),
   (65279,65280), (65287,65288), (65294,65295), (65306,65307), (65342,65343), (65344,65345),
   (65392,65393), (65438,65440), (65507,65508), (65529,65532), (66045,66046), (66272,66273),
   (66422,66427), (67456,67462), (67463,67505), (67506,67515), (68097,68100), (68101,68103),
   (68108,68112), (68152,68155), (68159,68160), (68325,68327), (68900,68904), (69291,69293),
   (69446,69457), (69506,69510), (69633,69634), (69688,69703), (69744,69745), (69747,69749),
   (69759,69762), (69811,69815), (69817,69819), (69821,69822), (69826,69827), (69837,69838),
   (69888,69891), (69927,69932), (69933,69941), (70003,70004), (70016,70018), (70070,70079),
   (70089,70093), (70095,70096), (70191,70194), (70196,70197), (70198,70200), (70206,70207),
   (70367,70368), (70371,70379), (70400,70402), (70459,70461), (70464,70465), (70502,70509),
   (70512,70517), (70712,70720), (70722,70725), (70726,70727), (70750,70751), (70835,70841),
   (70842,70843), (70847,70849), (70850,70852), (71090,71094), (71100,71102), (71103,71105),
   (71132,71134), (71219,71227), (71229,71230), (71231,71233), (71339,71340), (71341,71342),
   (71344,71350), (71351,71352), (71453,71456), (71458,71462), (71463,71468), (71727,71736),
   (71737,71739), (71995,71997), (71998,71999), (72003,72004), (72148,72152), (72154,72156),
   (72160,72161), (72193,72203), (72243,72249), (72251,72255), (72263,72264), (72273,72279),
   (72281,72284), (72330,72343), (72344,72346), (72752,72759), (72760,72766), (72767,72768),
   (72850,72872), (72874,72881), (72882,72884), (72885,72887), (73009,73015), (73018,73019),
   (73020,73022), (73023,73030), (73031,73032), (73104,73106), (73109,73110), (73111,73112),
   (73459,73461), (78896,78905), (92912,92917), (92976,92983), (92992,92996), (94031,94032),
   (94095,94112), (94176,94178), (94179,94181), (110576,110580), (110581,110588), (110589,110591),
   (113821,113823), (113824,113828), (118528,118574), (118576,118599), (119143,119146),
   (119155,119171), (119173,119180), (119210,119214), (119362,119365), (121344,121399),
   (121403,121453), (121461,121462), (121476,121477), (121499,121504), (121505,121520),
   (122880,122887), (122888,122905), (122907,122914), (122915,122917), (122918,122923),
   (123184,123198), (123566,123567), (123628,123632), (125136,125143), (125252,125260),
   (127995,128000), (917505,917506), (917536,917632), (917760,918000)]

set_option maxHeartbeats 1000000 in
/-- The full lowercase mapping of Unicode 14.0 (code point to lowercase
scalars, identity mappings omitted): the table behind Rust's
`char::to_lowercase`, including the multi-scalar special casings. -/
def lowerTable : List (Nat × List Nat) :=
  [(65,[97]), (66,[98]), (67,[99]), (68,[100]), (69,[101]), (70,[102]), (71,[103]), (72,[104]),
   (73,[105]), (74,[106]), (75,[107]), (76,[108]), (77,[109]), (78,[110]), (79,[111]), (80,[112]),
   (81,[113]), (82,[114]), (83,[115]), (84,[116]), (85,[117]), (86,[118]), (87,[119]), (88,[120]),
   (89,[121]), (90,[122]), (192,[224]), (193,[225]), (194,[226]), (195,[227]), (196,[228]),
   (197,[229]), (198,[230]), (199,[231]), (200,[232]), (201,[233]), (202,[234]), (203,[235]),
   (204,[236]), (205,[237]), (206,[238]), (207,[239]), (208,[240]), (209,[241]), (210,[242]),
   (211,[243]), (212,[244]), (213,[245]), (214,[246]), (216,[248]), (217,[249]), (218,[250]),
   (219,[251]), (220,[252]), (221,[253]), (222,[254]), (256,[257]), (258,[259]), (260,[261]),
   (262,[263]), (264,[265]), (266,[267]), (268,[269]), (270,[271]), (272,[273]), (274,[275]),
   (276,[277]), (278,[279]), (280,[281]), (282,[283]), (284,[285]), (286,[287]), (288,[289]),
   (290,[291]), (292,[293]), (294,[295]), (296,[297]), (298,[299]), (300,[301]), (302,[303]),
   (304,[105,775]), (306,[307]), (308,[309]), (310,[311]), (313,[314]), (315,[316]), (317,[318]),
   (319,[320]), (321,[322]), (323,[324]), (325,[326]), (327,[328]), (330,[331]), (332,[333]),
   (334,[335]), (336,[337]), (338,[339]), (340,[341]), (342,[343]), (344,[345]), (346,[347]),
   (348,[349]), (350,[351]), (352,[353]), (354,[355]), (356,[357]), (358,[359]), (360,[361]),
   (362,[363]), (364,[365]), (366,[367]), (368,[369]), (370,[371]), (372,[373]), (374,[375]),
   (376,[255]), (377,[378]), (379,[380]), (381,[382]), (385,[595]), (386,[387]), (388,[389]),
   (390,[596]), (391,[392]), (393,[598]), (394,[599]), (395,[396]), (398,[477]), (399,[601]),
   (400,[603]), (401,[402]), (403,[608]), (404,[611]), (406,[617]), (407,[616]), (408,[409]),
   (412,[623]), (413,[626]), (415,[629]), (416,[417]), (418,[419]), (420,[421]), (422,[640]),
   (423,[424]), (425,[643]), (428,[429]), (430,[648]), (431,[432]), (433,[650]), (434,[651]),
   (435,[436]), (437,[438]), (439,[658]), (440,[441]), (444,[445]), (452,[454]), (453,[454]),
   (455,[457]), (456,[457]), (458,[460]), (459,[460]), (461,[462]), (463,[464]), (465,[466]),
   (467,[468]), (469,[470]), (471,[472]), (473,[474]), (475,[476]), (478,[479]), (480,[481]),
   (482,[483]), (484,[485]), (486,[487]), (488,[489]), (490,[491]), (492,[493]), (494,[495]),
   (497,[499]), (498,[499]), (500,[501]), (502,[405]), (503,[447]), (504,[505]), (506,[507]),
   (508,[509]), (510,[511]), (512,[513]), (514,[515]), (516,[517]), (518,[519]), (520,[521]),
   (522,[523]), (524,[525]), (526,[527]), (528,[529]), (530,[531]), (532,[533]), (534,[535]),
   (536,[537]), (538,[539]), (540,[541]), (542,[543]), (544,[414]), (546,[547]), (548,[549]),
   (550,[551]), (552,[553]), (554,[555]), (556,[557]), (558,[559]), (560,[561]), (562,[563]),
   (570,[11365]), (571,[572]), (573,[410]), (574,[11366]), (577,[578]), (579,[384]), (580,[649]),
   (581,[652]), (582,[583]), (584,[585]), (586,[587]), (588,[589]), (590,[591]), (880,[881]),
   (882,[883]), (886,[887]), (895,[1011]), (902,[940]), (904,[941]), (905,[942]), (906,[943]),
   (908,[972]), (910,[973]), (911,[974]), (913,[945]), (914,[946]), (915,[947]), (916,[948]),
   (917,[949]), (918,[950]), (919,[951]), (920,[952]), (921,[953]), (922,[954]), (923,[955]),
   (924,[956]), (925,[957]), (926,[958]), (927,[959]), (928,[960]), (929,[961]), (931,[963]),
   (932,[964]), (933,[965]), (934,[966]), (935,[967]), (936,[968]), (937,[969]), (938,[970]),
   (939,[971]), (975,[983]), (984,[985]), (986,[987]), (988,[989]), (990,[991]), (992,[993]),
   (994,[995]), (996,[997]), (998,[999]), (1000,[1001]), (1002,[1003]), (1004,[1005]),
   (1006,[1007]), (1012,[952]), (1015,[1016]), (1017,[1010]), (1018,[1019]), (1021,[891]),
   (1022,[892]), (1023,[893]), (1024,[1104]), (1025,[1105]), (1026,[1106]), (1027,[1107]),
   (1028,[1108]), (1029,[1109]), (1030,[1110]), (1031,[1111]), (1032,[1112]), (1033,[1113]),
   (1034,[1114]), (1035,[1115]), (1036,[1116]), (1037,[1117]), (1038,[1118]), (1039,[1119]),
   (1040,[1072]), (1041,[1073]), (1042,[1074]), (1043,[1075]), (1044,[1076]), (1045,[1077]),
   (1046,[1078]), (1047,[1079]), (1048,[1080]), (1049,[1081]), (1050,[1082]), (1051,[1083]),
   (1052,[1084]), (1053,[1085]), (1054,[1086]), (1055,[1087]), (1056,[1088]), (1057,[1089]),
   (1058,[1090]), (1059,[1091]), (1060,[1092]), (1061,[1093]), (1062,[1094]), (1063,[1095]),
   (1064,[1096]), (1065,[1097]), (1066,[1098]), (1067,[1099]), (1068,[1100]), (1069,[1101]),
   (1070,[1102]), (1071,[1103]), (1120,[1121]), (1122,[1123]), (1124,[1125]), (1126,[1127]),
   (1128,[1129]), (1130,[1131]), (1132,[1133]), (1134,[1135]), (1136,[1137]), (1138,[1139]),
   (1140,[1141]), (1142,[1143]), (1144,[1145]), (1146,[1147]), (1148,[1149]), (1150,[1151]),
   (1152,[1153]), (1162,[1163]), (1164,[1165]), (1166,[1167]), (1168,[1169]), (1170,[1171]),
   (1172,[1173]), (1174,[1175]), (1176,[1177]), (1178,[1179]), (1180,[1181]), (1182,[1183]),
   (1184,[1185]), (1186,[1187]), (1188,[1189]), (1190,[1191]), (1192,[1193]), (1194,[1195]),
   (1196,[1197]), (1198,[1199]), (1200,[1201]), (1202,[1203]), (1204,[1205]), (1206,[1207]),
   (1208,[1209]), (1210,[1211]), (1212,[1213]), (1214,[1215]), (1216,[1231]), (1217,[1218]),
   (1219,[1220]), (1221,[1222]), (1223,[1224]), (1225,[1226]), (1227,[1228]), (1229,[1230]),
   (1232,[1233]), (1234,[1235]), (1236,[1237]), (1238,[1239]), (1240,[1241]), (1242,[1243]),
   (1244,[1245]), (1246,[1247]), (1248,[1249]), (1250,[1251]), (1252,[1253]), (1254,[1255]),
   (1256,[1257]), (1258,[1259]), (1260,[1261]), (1262,[1263]), (1264,[1265]), (1266,[1267]),
   (1268,[1269]), (1270,[1271]), (1272,[1273]), (1274,[1275]), (1276,[1277]), (1278,[1279]),
   (1280,[1281]), (1282,[1283]), (1284,[1285]), (1286,[1287]), (1288,[1289]), (1290,[1291]),
   (1292,[1293]), (1294,[1295]), (1296,[1297]), (1298,[1299]), (1300,[1301]), (1302,[1303]),
   (1304,[1305]), (1306,[1307]), (1308,[1309]), (1310,[1311]), (1312,[1313]), (1314,[1315]),
   (1316,[1317]), (1318,[1319]), (1320,[1321]), (1322,[1323]), (1324,[1325]), (1326,[1327]),
   (1329,[1377]), (1330,[1378]), (1331,[1379]), (1332,[1380]), (1333,[1381]), (1334,[1382]),
   (1335,[1383]), (1336,[1384]), (1337,[1385]), (1338,[1386]), (1339,[1387]), (1340,[1388]),
   (1341,[1389]), (1342,[1390]), (1343,[1391]), (1344,[1392]), (1345,[1393]), (1346,[1394]),
   (1347,[1395]), (1348,[1396]), (1349,[1397]), (1350,[1398]), (1351,[1399]), (1352,[1400]),
   (1353,[1401]), (1354,[1402]), (1355,[1403]), (1356,[1404]), (1357,[1405]), (1358,[1406]),
   (1359,[1407]), (1360,[1408]), (1361,[1409]), (1362,[1410]), (1363,[1411]), (1364,[1412]),
   (1365,[1413]), (1366,[1414]), (4256,[11520]), (4257,[11521]), (4258,[11522]), (4259,[11523]),
   (4260,[11524]), (4261,[11525]), (4262,[11526]), (4263,[11527]), (4264,[11528]), (4265,[11529]),
   (4266,[11530]), (4267,[11531]), (4268,[11532]), (4269,[11533]), (4270,[11534]), (4271,[11535]),
   (4272,[11536]), (4273,[11537]), (4274,[11538]), (4275,[11539]), (4276,[11540]), (4277,[11541]),
   (4278,[11542]), (4279,[11543]), (4280,[11544]), (4281,[11545]), (4282,[11546]), (4283,[11547]),
   (4284,[11548]), (4285,[11549]), (4286,[11550]), (4287,[11551]), (4288,[11552]), (4289,[11553]),
   (4290,[11554]), (4291,[11555]), (4292,[11556]), (4293,[11557]), (4295,[11559]), (4301,[11565]),
   (5024,[43888]), (5025,[43889]), (5026,[43890]), (5027,[43891]), (5028,[43892]), (5029,[43893]),
   (5030,[43894]), (5031,[43895]), (5032,[43896]), (5033,[43897]), (5034,[43898]), (5035,[43899]),
   (5036,[43900]), (5037,[43901]), (5038,[43902]), (5039,[43903]), (5040,[43904]), (5041,[43905]),
   (5042,[43906]), (5043,[43907]), (5044,[43908]), (5045,[43909]), (5046,[43910]), (5047,[43911]),
   (5048,[43912]), (5049,[43913]), (5050,[43914]), (5051,[43915]), (5052,[43916]), (5053,[43917]),
   (5054,[43918]), (5055,[43919]), (5056,[43920]), (5057,[43921]), (5058,[43922]), (5059,[43923]),
   (5060,[43924]), (5061,[43925]), (5062,[43926]), (5063,[43927]), (5064,[43928]), (5065,[43929]),
   (5066,[43930]), (5067,[43931]), (5068,[43932]), (5069,[43933]), (5070,[43934]), (5071,[43935]),
   (5072,[43936]), (5073,[43937]), (5074,[43938]), (5075,[43939]), (5076,[43940]), (5077,[43941]),
   (5078,[43942]), (5079,[43943]), (5080,[43944]), (5081,[43945]), (5082,[43946]), (5083,[43947]),
   (5084,[43948]), (5085,[43949]), (5086,[43950]), (5087,[43951]), (5088,[43952]), (5089,[43953]),
   (5090,[43954]), (5091,[43955]), (5092,[43956]), (5093,[43957]), (5094,[43958]), (5095,[43959]),
   (5096,[43960]), (5097,[43961]), (5098,[43962]), (5099,[43963]), (5100,[43964]), (5101,[43965]),
   (5102,[43966]), (5103,[43967]), (5104,[5112]), (5105,[5113]), (5106,[5114]), (5107,[5115]),
   (5108,[5116]), (5109,[5117]), (7312,[4304]), (7313,[4305]), (7314,[4306]), (7315,[4307]),
   (7316,[4308]), (7317,[4309]), (7318,[4310]), (7319,[4311]), (7320,[4312]), (7321,[4313]),
   (7322,[4314]), (7323,[4315]), (7324,[4316]), (7325,[4317]), (7326,[4318]), (7327,[4319]),
   (7328,[4320]), (7329,[4321]), (7330,[4322]), (7331,[4323]), (7332,[4324]), (7333,[4325]),
   (7334,[4326]), (7335,[4327]), (7336,[4328]), (7337,[4329]), (7338,[4330]), (7339,[4331]),
   (7340,[4332]), (7341,[4333]), (7342,[4334]), (7343,[4335]), (7344,[4336]), (7345,[4337]),
   (7346,[4338]), (7347,[4339]), (7348,[4340]), (7349,[4341]), (7350,[4342]), (7351,[4343]),
   (7352,[4344]), (7353,[4345]), (7354,[4346]), (7357,[4349]), (7358,[4350]), (7359,[4351]),
   (7680,[7681]), (7682,[7683]), (7684,[7685]), (7686,[7687]), (7688,[7689]), (7690,[7691]),
   (7692,[7693]), (7694,[7695]), (7696,[7697]), (7698,[7699]), (7700,[7701]), (7702,[7703]),
   (7704,[7705]), (7706,[7707]), (7708,[7709]), (7710,[7711]), (7712,[7713]), (7714,[7715]),
   (7716,[7717]), (7718,[7719]), (7720,[7721]), (7722,[7723]), (7724,[7725]), (7726,[7727]),
   (7728,[7729]), (7730,[7731]), (7732,[7733]), (7734,[7735]), (7736,[7737]), (7738,[7739]),
   (7740,[7741]), (7742,[7743]), (7744,[7745]), (7746,[7747]), (7748,[7749]), (7750,[7751]),
   (7752,[7753]), (7754,[7755]), (7756,[7757]), (7758,[7759]), (7760,[7761]), (7762,[7763]),
   (7764,[7765]), (7766,[7767]), (7768,[7769]), (7770,[7771]), (7772,[7773]), (7774,[7775]),
   (7776,[7777]), (7778,[7779]), (7780,[7781]), (7782,[7783]), (7784,[7785]), (7786,[7787]),
   (7788,[7789]), (7790,[7791]), (7792,[7793]), (7794,[7795]), (7796,[7797]), (7798,[7799]),
   (7800,[7801]), (7802,[7803]), (7804,[7805]), (7806,[7807]), (7808,[7809]), (7810,[7811]),
   (7812,[7813]), (7814,[7815]), (7816,[7817]), (7818,[7819]), (7820,[7821]), (7822,[7823]),
   (7824,[7825]), (7826,[7827]), (7828,[7829]), (7838,[223]), (7840,[7841]), (7842,[7843]),
   (7844,[7845]), (7846,[7847]), (7848,[7849]), (7850,[7851]), (7852,[7853]), (7854,[7855]),
   (7856,[7857]), (7858,[7859]), (7860,[7861]), (7862,[7863]), (7864,[7865]), (7866,[7867]),
   (7868,[7869]), (7870,[7871]), (7872,[7873]), (7874,[7875]), (7876,[7877]), (7878,[7879]),
   (7880,[7881]), (7882,[7883]), (7884,[7885]), (7886,[7887]), (7888,[7889]), (7890,[7891]),
   (7892,[7893]), (7894,[7895]), (7896,[7897]), (7898,[7899]), (7900,[7901]), (7902,[7903]),
   (7904,[7905]), (7906,[7907]), (7908,[7909]), (7910,[7911]), (7912,[7913]), (7914,[7915]),
   (7916,[7917]), (7918,[7919]), (7920,[7921]), (7922,[7923]), (7924,[7925]), (7926,[7927]),
   (7928,[7929]), (7930,[7931]), (7932,[7933]), (7934,[7935]), (7944,[7936]), (7945,[7937]),
   (7946,[7938]), (7947,[7939]), (7948,[7940]), (7949,[7941]), (7950,[7942]), (7951,[7943]),
   (7960,[7952]), (7961,[7953]), (7962,[7954]), (7963,[7955]), (7964,[7956]), (7965,[7957]),
   (7976,[7968]), (7977,[7969]), (7978,[7970]), (7979,[7971]), (7980,[7972]), (7981,[7973]),
   (7982,[7974]), (7983,[7975]), (7992,[7984]), (7993,[7985]), (7994,[7986]), (7995,[7987]),
   (7996,[7988]), (7997,[7989]), (7998,[7990]), (7999,[7991]), (8008,[8000]), (8009,[8001]),
   (8010,[8002]), (8011,[8003]), (8012,[8004]), (8013,[8005]), (8025,[8017]), (8027,[8019]),
   (8029,[8021]), (8031,[8023]), (8040,[8032]), (8041,[8033]), (8042,[8034]), (8043,[8035]),
   (8044,[8036]), (8045,[8037]), (8046,[8038]), (8047,[8039]), (8072,[8064]), (8073,[8065]),
   (8074,[8066]), (8075,[8067]), (8076,[8068]), (8077,[8069]), (8078,[8070]), (8079,[8071]),
   (8088,[8080]), (8089,[8081]), (8090,[8082]), (8091,[8083]), (8092,[8084]), (8093,[8085]),
   (8094,[8086]), (8095,[8087]), (8104,[8096]), (8105,[8097]), (8106,[8098]), (8107,[8099]),
   (8108,[8100]), (8109,[8101]), (8110,[8102]), (8111,[8103]), (8120,[8112]), (8121,[8113]),
   (8122,[8048]), (8123,[8049]), (8124,[8115]), (8136,[8050]), (8137,[8051]), (8138,[8052]),
   (8139,[8053]), (8140,[8131]), (8152,[8144]), (8153,[8145]), (8154,[8054]), (8155,[8055]),
   (8168,[8160]), (8169,[8161]), (8170,[8058]), (8171,[8059]), (8172,[8165]), (8184,[8056]),
   (8185,[8057]), (8186,[8060]), (8187,[8061]), (8188,[8179]), (8486,[969]), (8490,[107]),
   (8491,[229]), (8498,[8526]), (8544,[8560]), (8545,[8561]), (8546,[8562]), (8547,[8563]),
   (8548,[8564]), (8549,[8565]), (8550,[8566]), (8551,[8567]), (8552,[8568]), (8553,[8569]),
   (8554,[8570]), (8555,[8571]), (8556,[8572]), (8557,[8573]), (8558,[8574]), (8559,[8575]),
   (8579,[8580]), (9398,[9424]), (9399,[9425]), (9400,[9426]), (9401,[9427]), (9402,[9428]),
   (9403,[9429]), (9404,[9430]), (9405,[9431]), (9406,[9432]), (9407,[9433]), (9408,[9434]),
   (9409,[9435]), (9410,[9436]), (9411,[9437]), (9412,[9438]), (9413,[9439]), (9414,[9440]),
   (9415,[9441]), (9416,[9442]), (9417,[9443]), (9418,[9444]), (9419,[9445]), (9420,[9446]),
   (9421,[9447]), (9422,[9448]), (9423,[9449]), (11264,[11312]), (11265,[11313]), (11266,[11314]),
   (11267,[11315]), (11268,[11316]), (11269,[11317]), (11270,[11318]), (11271,[11319]),
   (11272,[11320]), (11273,[11321]), (11274,[11322]), (11275,[11323]), (11276,[11324]),
   (11277,[11325]), (11278,[11326]), (11279,[11327]), (11280,[11328]), (11281,[11329]),
   (11282,[11330]), (11283,[11331]), (11284,[11332]), (11285,[11333]), (11286,[11334]),
   (11287,[11335]), (11288,[11336]), (11289,[11337]), (11290,[11338]), (11291,[11339]),
   (11292,[11340]), (11293,[11341]), (11294,[11342]), (11295,[11343]), (11296,[11344]),
   (11297,[11345]), (11298,[11346]), (11299,[11347]), (11300,[11348]), (11301,[11349]),
   (11302,[11350]), (11303,[11351]), (11304,[11352]), (11305,[11353]), (11306,[11354]),
   (11307,[11355]), (11308,[11356]), (11309,[11357]), (11310,[11358]), (11311,[11359]),
   (11360,[11361]), (11362,[619]), (11363,[7549]), (11364,[637]), (11367,[11368]), (11369,[11370]),
   (11371,[11372]), (11373,[593]), (11374,[625]), (11375,[592]), (11376,[594]), (11378,[11379]),
   (11381,[11382]), (11390,[575]), (11391,[576]), (11392,[11393]), (11394,[11395]), (11396,[11397]),
   (11398,[11399]), (11400,[11401]), (11402,[11403]), (11404,[11405]), (11406,[11407]),
   (11408,[11409]), (11410,[11411]), (11412,[11413]), (11414,[11415]), (11416,[11417]),
   (11418,[11419]), (11420,[11421]), (11422,[11423]), (11424,[11425]), (11426,[11427]),
   (11428,[11429]), (11430,[11431]), (11432,[11433]), (11434,[11435]), (11436,[11437]),
   (11438,[11439]), (11440,[11441]), (11442,[11443]), (11444,[11445]), (11446,[11447]),
   (11448,[11449]), (11450,[11451]), (11452,[11453]), (11454,[11455]), (11456,[11457]),
   (11458,[11459]), (11460,[11461]), (11462,[11463]), (11464,[11465]), (11466,[11467]),
   (11468,[11469]), (11470,[11471]), (11472,[11473]), (11474,[11475]), (11476,[11477]),
   (11478,[11479]), (11480,[11481]), (11482,[11483]), (11484,[11485]), (11486,[11487]),
   (11488,[11489]), (11490,[11491]), (11499,[11500]), (11501,[11502]), (11506,[11507]),
   (42560,[42561]), (42562,[42563]), (42564,[42565]), (42566,[42567]), (42568,[42569]),
   (42570,[42571]), (42572,[42573]), (42574,[42575]), (42576,[42577]), (42578,[42579]),
   (42580,[42581]), (42582,[42583]), (42584,[42585]), (42586,[42587]), (42588,[42589]),
   (42590,[42591]), (42592,[42593]), (42594,[42595]), (42596,[42597]), (42598,[42599]),
   (42600,[42601]), (42602,[42603]), (42604,[42605]), (42624,[42625]), (42626,[42627]),
   (42628,[42629]), (42630,[42631]), (42632,[42633]), (42634,[42635]), (42636,[42637]),
   (42638,[42639]), (42640,[42641]), (42642,[42643]), (42644,[42645]), (42646,[42647]),
   (42648,[42649]), (42650,[42651]), (42786,[42787]), (42788,[42789]), (42790,[42791]),
   (42792,[42793]), (42794,[42795]), (42796,[42797]), (42798,[42799]), (42802,[42803]),
   (42804,[42805]), (42806,[42807]), (42808,[42809]), (42810,[42811]), (42812,[42813]),
   (42814,[42815]), (42816,[42817]), (42818,[42819]), (42820,[42821]), (42822,[42823]),
   (42824,[42825]), (42826,[42827]), (42828,[42829]), (42830,[42831]), (42832,[42833]),
   (42834,[42835]), (42836,[42837]), (42838,[42839]), (42840,[42841]), (42842,[42843]),
   (42844,[42845]), (42846,[42847]), (42848,[42849]), (42850,[42851]), (42852,[42853]),
   (42854,[42855]), (42856,[42857]), (42858,[42859]), (42860,[42861]), (42862,[42863]),
   (42873,[42874]), (42875,[42876]), (42877,[7545]), (42878,[42879]), (42880,[42881]),
   (42882,[42883]), (42884,[42885]), (42886,[42887]), (42891,[42892]), (42893,[613]),
   (42896,[42897]), (42898,[42899]), (42902,[42903]), (42904,[42905]), (42906,[42907]),
   (42908,[42909]), (42910,[42911]), (42912,[42913]), (42914,[42915]), (42916,[42917]),
   (42918,[42919]), (42920,[42921]), (42922,[614]), (42923,[604]), (42924,[609]), (42925,[620]),
   (42926,[618]), (42928,[670]), (42929,[647]), (42930,[669]), (42931,[43859]), (42932,[42933]),
   (42934,[42935]), (42936,[42937]), (42938,[42939]), (42940,[42941]), (42942,[42943]),
   (42944,[42945]), (42946,[42947]), (42948,[42900]), (42949,[642]), (42950,[7566]),
   (42951,[42952]), (42953,[42954]), (42960,[42961]), (42966,[42967]), (42968,[42969]),
   (42997,[42998]), (65313,[65345]), (65314,[65346]), (65315,[65347]), (65316,[65348]),
   (65317,[65349]), (65318,[65350]), (65319,[65351]), (65320,[65352]), (65321,[65353]),
   (65322,[65354]), (65323,[65355]), (65324,[65356]), (65325,[65357]), (65326,[65358]),
   (65327,[65359]), (65328,[65360]), (65329,[65361]), (65330,[65362]), (65331,[65363]),
   (65332,[65364]), (65333,[65365]), (65334,[65366]), (65335,[65367]), (65336,[65368]),
   (65337,[65369]), (65338,[65370]), (66560,[66600]), (66561,[66601]), (66562,[66602]),
   (66563,[66603]), (66564,[66604]), (66565,[66605]), (66566,[66606]), (66567,[66607]),
   (66568,[66608]), (66569,[66609]), (66570,[66610]), (66571,[66611]), (66572,[66612]),
   (66573,[66613]), (66574,[66614]), (66575,[66615]), (66576,[66616]), (66577,[66617]),
   (66578,[66618]), (66579,[66619]), (66580,[66620]), (66581,[66621]), (66582,[66622]),
   (66583,[66623]), (66584,[66624]), (66585,[66625]), (66586,[66626]), (66587,[66627]),
   (66588,[66628]), (66589,[66629]), (66590,[66630]), (66591,[66631]), (66592,[66632]),
   (66593,[66633]), (66594,[66634]), (66595,[66635]), (66596,[66636]), (66597,[66637]),
   (66598,[66638]), (66599,[66639]), (66736,[66776]), (66737,[66777]), (66738,[66778]),
   (66739,[66779]), (66740,[66780]), (66741,[66781]), (66742,[66782]), (66743,[66783]),
   (66744,[66784]), (66745,[66785]), (66746,[66786]), (66747,[66787]), (66748,[66788]),
   (66749,[66789]), (66750,[66790]), (66751,[66791]), (66752,[66792]), (66753,[66793]),
   (66754,[66794]), (66755,[66795]), (66756,[66796]), (66757,[66797]), (66758,[66798]),
   (66759,[66799]), (66760,[66800]), (66761,[66801]), (66762,[66802]), (66763,[66803]),
   (66764,[66804]), (66765,[66805]), (66766,[66806]), (66767,[66807]), (66768,[66808]),
   (66769,[66809]), (66770,[66810]), (66771,[66811]), (66928,[66967]), (66929,[66968]),
   (66930,[66969]), (66931,[66970]), (66932,[66971]), (66933,[66972]), (66934,[66973]),
   (66935,[66974]), (66936,[66975]), (66937,[66976]), (66938,[66977]), (66940,[66979]),
   (66941,[66980]), (66942,[66981]), (66943,[66982]), (66944,[66983]), (66945,[66984]),
   (66946,[66985]), (66947,[66986]), (66948,[66987]), (66949,[66988]), (66950,[66989]),
   (66951,[66990]), (66952,[66991]), (66953,[66992]), (66954,[66993]), (66956,[66995]),
   (66957,[66996]), (66958,[66997]), (66959,[66998]), (66960,[66999]), (66961,[67000]),
   (66962,[67001]), (66964,[67003]), (66965,[67004]), (68736,[68800]), (68737,[68801]),
   (68738,[68802]), (68739,[68803]), (68740,[68804]), (68741,[68805]), (68742,[68806]),
   (68743,[68807]), (68744,[68808]), (68745,[68809]), (68746,[68810]), (68747,[68811]),
   (68748,[68812]), (68749,[68813]), (68750,[68814]), (68751,[68815]), (68752,[68816]),
   (68753,[68817]), (68754,[68818]), (68755,[68819]), (68756,[68820]), (68757,[68821]),
   (68758,[68822]), (68759,[68823]), (68760,[68824]), (68761,[68825]), (68762,[68826]),
   (68763,[68827]), (68764,[68828]), (68765,[68829]), (68766,[68830]), (68767,[68831]),
   (68768,[68832]), (68769,[68833]), (68770,[68834]), (68771,[68835]), (68772,[68836]),
   (68773,[68837]), (68774,[68838]), (68775,[68839]), (68776,[68840]), (68777,[68841]),
   (68778,[68842]), (68779,[68843]), (68780,[68844]), (68781,[68845]), (68782,[68846]),
   (68783,[68847]), (68784,[68848]), (68785,[68849]), (68786,[68850]), (71840,[71872]),
   (71841,[71873]), (71842,[71874]), (71843,[71875]), (71844,[71876]), (71845,[71877]),
   (71846,[71878]), (71847,[71879]), (71848,[71880]), (71849,[71881]), (71850,[71882]),
   (71851,[71883]), (71852,[71884]), (71853,[71885]), (71854,[71886]), (71855,[71887]),
   (71856,[71888]), (71857,[71889]), (71858,[71890]), (71859,[71891]), (71860,[71892]),
   (71861,[71893]), (71862,[71894]), (71863,[71895]), (71864,[71896]), (71865,[71897]),
   (71866,[71898]), (71867,[71899]), (71868,[71900]), (71869,[71901]), (71870,[71902]),
   (71871,[71903]), (93760,[93792]), (93761,[93793]), (93762,[93794]), (93763,[93795]),
   (93764,[93796]), (93765,[93797]), (93766,[93798]), (93767,[93799]), (93768,[93800]),
   (93769,[93801]), (93770,[93802]), (93771,[93803]), (93772,[93804]), (93773,[93805]),
   (93774,[93806]), (93775,[93807]), (93776,[93808]), (93777,[93809]), (93778,[93810]),
   (93779,[93811]), (93780,[93812]), (93781,[93813]), (93782,[93814]), (93783,[93815]),
   (93784,[93816]), (93785,[93817]), (93786,[93818]), (93787,[93819]), (93788,[93820]),
   (93789,[93821]), (93790,[93822]), (93791,[93823]), (125184,[125218]), (125185,[125219]),
   (125186,[125220]), (125187,[125221]), (125188,[125222]), (125189,[125223]), (125190,[125224]),
   (125191,[125225]), (125192,[125226]), (125193,[125227]), (125194,[125228]), (125195,[125229]),
   (125196,[125230]), (125197,[125231]), (125198,[125232]), (125199,[125233]), (125200,[125234]),
   (125201,[125235]), (125202,[125236]), (125203,[125237]), (125204,[125238]), (125205,[125239]),
   (125206,[125240]), (125207,[125241]), (125208,[125242]), (125209,[125243]), (125210,[125244]),
   (125211,[125245]), (125212,[125246]), (125213,[125247]), (125214,[125248]), (125215,[125249]),
   (125216,[125250]), (125217,[125251])]

/-- The Unicode `Cased` property (Unicode 14.0). -/
def isCased (c : Char) : Bool := inRanges casedRanges c.toNat

/-- The Unicode `Case_Ignorable` property (Unicode 14.0). -/
def isCaseIgnorable (c : Char) : Bool := inRanges caseIgnorableRanges c.toNat

/-- Table lookup for the lowercase mapping. -/
def lookupLower : List (Nat × List Nat) → Nat → Option (List Nat)
  | [], _ => none
  | (k, v) :: rest, n => if n = k then some v else lookupLower rest n

/-- `char::to_lowercase`: the non-contextual Unicode 14.0 lowercase mapping
of one scalar, possibly several scalars long. -/
def charToLower (c : Char) : RStr :=
  match lookupLower lowerTable c.toNat with
  | some l => l.map Char.ofNat
  | none => [c]

/-- `case_ignorable_then_cased` of Rust's `str::to_lowercase`: skip
`Case_Ignorable` characters, then test `Cased`. -/
def caseIgnorableThenCased : List Char → Bool
  | [] => false
  | c :: rest => if isCaseIgnorable c then caseIgnorableThenCased rest else isCased c

/-- The character walk of Rust's `str::to_lowercase`: every scalar maps
through `char::to_lowercase`, except capital sigma, which maps to the final
form `ς` exactly when it is preceded by a cased letter (after case-ignorable
characters) and not followed by one (the Unicode `Final_Sigma` condition, as
Rust implements it); `prev` holds the preceding original scalars, latest
first. -/
def rustToLowercaseAux : List Char → List Char → RStr
  | _, [] => []
  | prev, c :: rest =>
    if c = 'Σ' then
      (if caseIgnorableThenCased prev && !caseIgnorableThenCased rest
       then ['ς'] else ['σ']) ++ rustToLowercaseAux (c :: prev) rest
    else charToLower c ++ rustToLowercaseAux (c :: prev) rest

/-- `str::to_lowercase` (Unicode 14.0 tables). -/
def rustToLowercase (s : RStr) : RStr := rustToLowercaseAux [] s

/-- Does the second list start with the first? -/
def listStartsWith : RStr → RStr → Bool
  | [], _ => true
  | _ :: _, [] => false
  | p :: ps, c :: cs => p == c && listStartsWith ps cs

/-- `str::contains` (substring search). -/
def strContains : RStr → RStr → Bool
  | [], pat => pat.isEmpty
  | c :: rest, pat => listStartsWith pat (c :: rest) || strContains rest pat

/-- `TodoList::find_items_by_name`: filter the buffer by lowercased substring
match of the keyword against the name. -/
def TodoList.find_items_by_name (tl : TodoList) (keyword : RStr) : List TodoItem :=
  let keyword_lower := rustToLowercase keyword
  tl.buffer.filter (fun item => strContains (rustToLowercase item.name) keyword_lower)

/-! ### Rendering (`impl Display for TodoItem`) and decimal numerals -/

/-- Decimal digits of a natural number (big-endian), fuel-based so that it is
structurally recursive; `fuel ≥ n` suffices. -/
def natDigitsAux : Nat → Nat → RStr
  | 0, n => [Char.ofNat (48 + n % 10)]
  | fuel + 1, n =>
    if n < 10 then [Char.ofNat (48 + n)]
    else natDigitsAux fuel (n / 10) ++ [Char.ofNat (48 + n % 10)]

/-- Decimal numeral of a natural number, as Rust `Display` renders it. -/
def natToStr (n : Nat) : RStr := natDigitsAux n n

/-- Decimal numeral of an integer, as Rust `Display` for `i16` renders it. -/
def intToStr (i : Int) : RStr :=
  if i < 0 then '-' :: natToStr i.natAbs else natToStr i.toNat

/-- `impl Display for TodoItem` of `main.rs`: the format string is
`"Item: {} \nContent: {} \n(Priority: {})"` (note the space before each
newline). -/
def TodoItem.display (it : TodoItem) : RStr :=
  "Item: ".toList ++ it.name ++ " \nContent: ".toList ++ it.content ++
    " \n(Priority: ".toList ++ intToStr it.priority ++ [')']

/-! ### `serde_json` serialization of `Vec<TodoItem>` -/

/-- Lowercase hex digit, as `serde_json` uses for `\u00XX` escapes. -/
def hexDigitChar (n : Nat) : Char :=
  if n < 10 then Char.ofNat (48 + n) else Char.ofNat (87 + n)

/-- `serde_json`'s escaping of one character inside a JSON string: short
escapes for `"`, `\`, backspace, tab, newline, form feed, carriage return;
`\u00XX` for the remaining control characters; everything else verbatim. -/
def escapeChar (c : Char) : RStr :=
  if c = '"' then ['\\', '"']
  else if c = '\\' then ['\\', '\\']
  else if c = '\x08' then ['\\', 'b']
  else if c = '\x09' then ['\\', 't']
  else if c = '\x0a' then ['\\', 'n']
  else if c = '\x0c' then ['\\', 'f']
  else if c = '\x0d' then ['\\', 'r']
  else if c.toNat < 0x20 then
    ['\\', 'u', '0', '0', hexDigitChar (c.toNat / 16), hexDigitChar (c.toNat % 16)]
  else [c]

/-- Escape a whole string. -/
def escapeString (s : RStr) : RStr :=
  match s with
  | [] => []
  | c :: rest => escapeChar c ++ escapeString rest

/-- A JSON string literal: quotes around the escaped content. -/
def quoteString (s : RStr) : RStr := '"' :: (escapeString s ++ ['"'])

/-- `serde_json::to_string` of one `TodoItem` (compact, fields in
declaration order). -/
def serializeItem (it : TodoItem) : RStr :=
  ['\x7b'] ++ quoteString "name".toList ++ [':'] ++ quoteString it.name ++
    [','] ++ quoteString "content".toList ++ [':'] ++ quoteString it.content ++
    [','] ++ quoteString "priority".toList ++ [':'] ++ intToStr it.priority ++
    ['\x7d']

/-- Comma-joined serialization of the items. -/
def serializeItems : List TodoItem → RStr
  | [] => []
  | [it] => serializeItem it
  | it :: it2 :: rest => serializeItem it ++ [','] ++ serializeItems (it2 :: rest)

/-- `serde_json::to_string` of the whole `Vec<TodoItem>`. -/
def serializeTodoList (l : List TodoItem) : RStr :=
  '[' :: (serializeItems l ++ [']'])

/-- `TodoList::save_to_file` (success path): serialize the buffer, truncate
the file, write the payload. The buffer is untouched (`&self` receiver). -/
def TodoList.save_to_file (tl : TodoList) : TodoList :=
  { tl with file := serializeTodoList tl.buffer }

/-! ### `serde_json` deserialization of `Vec<TodoItem>` -/

/-- JSON insignificant whitespace. -/
def isJsonWs (c : Char) : Bool := c == ' ' || c == '\t' || c == '\n' || c == '\r'

/-- Skip insignificant whitespace. -/
def skipWs (s : RStr) : RStr := s.dropWhile isJsonWs

/-- Value of a hex digit. -/
def hexVal (c : Char) : Option Nat :=
  if '0' ≤ c ∧ c ≤ '9' then some (c.toNat - 48)
  else if 'a' ≤ c ∧ c ≤ 'f' then some (c.toNat - 87)
  else if 'A' ≤ c ∧ c ≤ 'F' then some (c.toNat - 55)
  else none

/-- Decode four hex digits into their value and the remaining input. -/
def hex4 : RStr → Option (Nat × RStr)
  | h1 :: h2 :: h3 :: h4 :: r =>
    match hexVal h1, hexVal h2, hexVal h3, hexVal h4 with
    | some a, some b, some c, some d => some (((a * 16 + b) * 16 + c) * 16 + d, r)
    | _, _, _, _ => none
  | _ => none

/-- Decode the payload of a `\uXXXX` escape (the input starts at the first hex
digit): either a Unicode scalar value directly, or a high surrogate followed by
a `\uXXXX` low surrogate, combined into one scalar value as `serde_json` does;
lone surrogates are errors. -/
def decodeUEscape (r : RStr) : Except RStr (Char × RStr) :=
  match hex4 r with
  | none => .error "invalid hex escape".toList
  | some (n, r2) =>
    if n < 0xD800 || 0xE000 ≤ n then .ok (Char.ofNat n, r2)
    else if n < 0xDC00 then
      match r2 with
      | '\\' :: 'u' :: r2' =>
        (match hex4 r2' with
        | none => .error "invalid hex escape".toList
        | some (m, r3) =>
          if 0xDC00 ≤ m ∧ m < 0xE000 then
            .ok (Char.ofNat (0x10000 + (n - 0xD800) * 0x400 + (m - 0xDC00)), r3)
          else .error "lone leading surrogate in hex escape".toList)
      | _ => .error "lone leading surrogate in hex escape".toList
    else .error "lone trailing surrogate in hex escape".toList

/-- Parse the body of a JSON string after the opening quote, returning the
decoded string and the input after the closing quote. Raw control characters
are rejected and escape sequences are decoded. One fuel unit is spent per
decoded character, so `length + 1` always suffices. -/
def parseStringBodyAux : Nat → RStr → Except RStr (RStr × RStr)
  | 0, _ => .error "recursion limit".toList
  | fuel + 1, s =>
    match s with
    | [] => .error "unexpected end of input in string".toList
    | c :: rest =>
    if c = '"' then .ok ([], rest)
    else if c = '\\' then
      match rest with
      | [] => .error "unexpected end of input in escape".toList
      | e :: r =>
        if e = '"' then (fun p => ('"' :: p.1, p.2)) <$> parseStringBodyAux fuel r
        else if e = '\\' then (fun p => ('\\' :: p.1, p.2)) <$> parseStringBodyAux fuel r
        else if e = '/' then (fun p => ('/' :: p.1, p.2)) <$> parseStringBodyAux fuel r
        else if e = 'b' then (fun p => ('\x08' :: p.1, p.2)) <$> parseStringBodyAux fuel r
        else if e = 't' then (fun p => ('\x09' :: p.1, p.2)) <$> parseStringBodyAux fuel r
        else if e = 'n' then (fun p => ('\x0a' :: p.1, p.2)) <$> parseStringBodyAux fuel r
        else if e = 'f' then (fun p => ('\x0c' :: p.1, p.2)) <$> parseStringBodyAux fuel r
        else if e = 'r' then (fun p => ('\x0d' :: p.1, p.2)) <$> parseStringBodyAux fuel r
        else if e = 'u' then
          match decodeUEscape r with
          | .ok q => (fun p => (q.1 :: p.1, p.2)) <$> parseStringBodyAux fuel q.2
          | .error msg => .error msg
        else .error "invalid escape".toList
    else if c.toNat < 0x20 then .error "control character in string".toList
    else (fun p => (c :: p.1, p.2)) <$> parseStringBodyAux fuel rest

/-- Parse the body of a JSON string after the opening quote (`\uXXXX` escapes
denote either a scalar value or a surrogate pair, combined as `serde_json`
does). -/
def parseStringBody (s : RStr) : Except RStr (RStr × RStr) :=
  parseStringBodyAux (s.length + 1) s

/-- Parse a JSON string literal (opening quote expected first). -/
def parseJsonString : RStr → Except RStr (RStr × RStr)
  | '"' :: rest => parseStringBody rest
  | _ => .error "expected string".toList

/-- Numeric value of a big-endian digit string. -/
def digitsToNat (ds : RStr) : Nat := ds.foldl (fun a c => a * 10 + (c.toNat - 48)) 0

/-- Parse a JSON natural-number literal greedily (no leading zeros). -/
def parseNat (s : RStr) : Except RStr (Nat × RStr) :=
  let ds := s.takeWhile Char.isDigit
  let rest := s.dropWhile Char.isDigit
  match ds with
  | [] => .error "expected number".toList
  | d :: ds2 =>
    if d = '0' ∧ ds2 ≠ [] then .error "leading zero in number".toList
    else .ok (digitsToNat (d :: ds2), rest)

/-- Parse a JSON integer and range-check it as an `i16`, as `serde` does. -/
def parseJsonI16 (s : RStr) : Except RStr (Int × RStr) :=
  if s.head? = some '-' then do
    let p ← parseNat s.tail
    if p.1 ≤ 32768 then .ok (-(p.1 : Int), p.2)
    else .error "number out of i16 range".toList
  else do
    let p ← parseNat s
    if p.1 ≤ 32767 then .ok ((p.1 : Int), p.2)
    else .error "number out of i16 range".toList

/-- Skip whitespace, then require the given character. -/
def expectChar (c : Char) (s : RStr) : Except RStr RStr :=
  match skipWs s with
  | c2 :: rest => if c2 == c then .ok rest else .error "unexpected token".toList
  | [] => .error "unexpected end of input".toList

/-- A parsing mode for the generic JSON value skipper. -/
inductive SkipMode where
  | value
  | arrayRest
  | arrayComma
  | objectRest
  | objectComma

/-- Skip a JSON number (full JSON grammar: optional minus, integer part,
optional fraction and exponent). -/
def skipJsonNumber (s : RStr) : Except RStr RStr := do
  let s1 := if s.head? = some '-' then s.tail else s
  let s2 ←
    (match s1.takeWhile Char.isDigit with
    | [] => .error "expected number".toList
    | _ :: _ => .ok (s1.dropWhile Char.isDigit))
  let s3 ←
    (if s2.head? = some '.' then
      match s2.tail.takeWhile Char.isDigit with
      | [] => .error "expected digits in fraction".toList
      | _ :: _ => .ok (s2.tail.dropWhile Char.isDigit)
    else .ok s2)
  if s3.head? = some 'e' ∨ s3.head? = some 'E' then
    let s4 := s3.tail
    let s5 := if s4.head? = some '+' ∨ s4.head? = some '-' then s4.tail else s4
    match s5.takeWhile Char.isDigit with
    | [] => .error "expected digits in exponent".toList
    | _ :: _ => .ok (s5.dropWhile Char.isDigit)
  else .ok s3

/-- Skip one JSON value (or, per `mode`, the remainder of an array or object),
as `serde_json` does for the values of ignored unknown fields. `fuel` is spent
on every step, and `2 * length + 8` always suffices (`serde_json` instead
enforces a recursion-depth limit of 128, which is not modelled — the model is
more lenient there). -/
def skipJson : Nat → SkipMode → RStr → Except RStr RStr
  | 0, _, _ => .error "recursion limit".toList
  | fuel + 1, .value, s =>
    (match skipWs s with
    | [] => .error "unexpected end of input".toList
    | c :: rest =>
      if c = '"' then (fun p => p.2) <$> parseStringBody rest
      else if c = 't' then
        match rest with
        | 'r' :: 'u' :: 'e' :: r => .ok r
        | _ => .error "expected value".toList
      else if c = 'f' then
        match rest with
        | 'a' :: 'l' :: 's' :: 'e' :: r => .ok r
        | _ => .error "expected value".toList
      else if c = 'n' then
        match rest with
        | 'u' :: 'l' :: 'l' :: r => .ok r
        | _ => .error "expected value".toList
      else if c = '[' then skipJson fuel .arrayRest rest
      else if c = '\x7b' then skipJson fuel .objectRest rest
      else skipJsonNumber (c :: rest))
  | fuel + 1, .arrayRest, s =>
    (match skipWs s with
    | ']' :: r => .ok r
    | _ => do
      let r1 ← skipJson fuel .value s
      skipJson fuel .arrayComma r1)
  | fuel + 1, .arrayComma, s =>
    (match skipWs s with
    | ',' :: r => do
      let r1 ← skipJson fuel .value r
      skipJson fuel .arrayComma r1
    | ']' :: r => .ok r
    | _ => .error "expected comma or end of array".toList)
  | fuel + 1, .objectRest, s =>
    (match skipWs s with
    | '\x7d' :: r => .ok r
    | _ => do
      let p ← parseJsonString (skipWs s)
      let r1 ← expectChar ':' p.2
      let r2 ← skipJson fuel .value r1
      skipJson fuel .objectComma r2)
  | fuel + 1, .objectComma, s =>
    (match skipWs s with
    | ',' :: r => do
      let p ← parseJsonString (skipWs r)
      let r1 ← expectChar ':' p.2
      let r2 ← skipJson fuel .value r1
      skipJson fuel .objectComma r2
    | '\x7d' :: r => .ok r
    | _ => .error "expected comma or end of object".toList)

/-- Entry point of the skipper, with always-sufficient fuel. -/
def skipJsonValue (s : RStr) : Except RStr RStr :=
  skipJson (2 * s.length + 8) .value s

/-- Consume one object field given its decoded key and the input after the
colon: the three known fields parse their typed values (a duplicate is an
error, as in `serde`), and an unknown field's value is skipped (the `serde`
derive ignores unknown fields). Returns the remaining input and the updated
field state. -/
def parseOneField (key r1 : RStr) (oname ocontent : Option RStr)
    (opriority : Option Int) :
    Except RStr (RStr × (Option RStr × Option RStr × Option Int)) :=
  if key = "name".toList then
    match oname with
    | some _ => .error "duplicate field name".toList
    | none => (fun pv => (pv.2, (some pv.1, ocontent, opriority))) <$>
        parseJsonString (skipWs r1)
  else if key = "content".toList then
    match ocontent with
    | some _ => .error "duplicate field content".toList
    | none => (fun pv => (pv.2, (oname, some pv.1, opriority))) <$>
        parseJsonString (skipWs r1)
  else if key = "priority".toList then
    match opriority with
    | some _ => .error "duplicate field priority".toList
    | none => (fun pv => (pv.2, (oname, ocontent, some pv.1))) <$>
        parseJsonI16 (skipWs r1)
  else
    (fun r2 => (r2, (oname, ocontent, opriority))) <$> skipJsonValue r1

/-- Parse the fields of a record object after the opening brace — in any
order, unknown fields ignored, exactly as the `serde` derive does; at the
closing brace all three fields must have appeared. -/
def parseFieldsLoop : Nat → RStr → Option RStr → Option RStr → Option Int →
    Except RStr (TodoItem × RStr)
  | 0, _, _, _, _ => .error "recursion limit".toList
  | fuel + 1, s, oname, ocontent, opriority => do
    let key ← parseJsonString (skipWs s)
    let r1 ← expectChar ':' key.2
    let st ← parseOneField key.1 r1 oname ocontent opriority
    match skipWs st.1 with
    | ',' :: r => parseFieldsLoop fuel r st.2.1 st.2.2.1 st.2.2.2
    | '\x7d' :: r =>
      (match st.2.1, st.2.2.1, st.2.2.2 with
      | some name, some content, some priority => .ok (⟨name, content, priority⟩, r)
      | none, _, _ => .error "missing field name".toList
      | some _, none, _ => .error "missing field content".toList
      | some _, some _, none => .error "missing field priority".toList)
    | _ => .error "expected comma or end of object".toList

/-- Parse one record object (`serde`-style: fields in any order, unknown
fields skipped, duplicate and missing fields rejected). -/
def parseItem (s : RStr) : Except RStr (TodoItem × RStr) := do
  let s1 ← expectChar '\x7b' s
  parseFieldsLoop (s1.length + 1) s1 none none none

/-- Parse the comma-separated items of a non-empty array up to and including
the closing bracket; `fuel` bounds the number of items. -/
def parseItemsLoop : Nat → RStr → Except RStr (List TodoItem × RStr)
  | 0, _ => .error "recursion limit".toList
  | fuel + 1, s => do
    let p ← parseItem s
    match skipWs p.2 with
    | ']' :: rest => .ok ([p.1], rest)
    | ',' :: rest => do
      let q ← parseItemsLoop fuel rest
      .ok (p.1 :: q.1, q.2)
    | _ => .error "expected comma or end of array".toList

/-- `serde_json::from_str::<Vec<TodoItem>>`: a JSON array of record objects
(fields in any order, unknown fields ignored), with nothing but whitespace
after it. -/
def deserialize (s : RStr) : Except RStr (List TodoItem) := do
  let s1 ← expectChar '[' s
  let q ←
    match skipWs s1 with
    | ']' :: r => pure (([] : List TodoItem), r)
    | _ => parseItemsLoop (s1.length + 1) s1
  match skipWs q.2 with
  | [] => .ok q.1
  | _ => .error "trailing characters".toList

/-! ### `TodoList::open` -/

/-- `char::is_whitespace`: the Unicode `White_Space` property (Unicode 14.0):
U+0009-U+000D, U+0020, U+0085, U+00A0, U+1680, U+2000-U+200A, U+2028, U+2029,
U+202F, U+205F, U+3000. -/
def rustIsWhitespace (c : Char) : Bool :=
  inRanges [(9, 14), (32, 33), (133, 134), (160, 161), (5760, 5761), (8192, 8203),
    (8232, 8234), (8239, 8240), (8287, 8288), (12288, 12289)] c.toNat

/-- `str::trim`. -/
def rustTrim (s : RStr) : RStr :=
  ((s.dropWhile rustIsWhitespace).reverse.dropWhile rustIsWhitespace).reverse

/-- The error message `TodoList::open` builds on a parse failure:
`"JSON 解析失败: {e} (内容: {content})"`. -/
def formatError (e : RStr) (content : RStr) : RStr :=
  "JSON 解析失败: ".toList ++ e ++ " (内容: ".toList ++ content ++ [')']

/-- `TodoList::open` on the contents of the file at the path (the file-open
and read steps are modelled on their success path): empty or whitespace-only
content yields an empty buffer; otherwise the content must parse as a JSON
array of records. -/
def TodoList.openStore (content : RStr) : Except RStr TodoList :=
  if (rustTrim content).isEmpty then .ok ⟨[], content⟩
  else
    match deserialize content with
    | .ok buffer => .ok ⟨buffer, content⟩
    | .error e => .error (formatError e content)

/-- The rendering template of the claim once amended: the template of
`main.rs` with its space before each of the two newlines, the three field
values substituted and nothing else. -/
def displaySpecAmended (it : TodoItem) : RStr :=
  "Item: ".toList ++ it.name ++ " \n".toList ++ "Content: ".toList ++
    it.content ++ " \n".toList ++ "(Priority: ".toList ++
    intToStr it.priority ++ ")".toList

/-! ### Helper lemmas on substring search -/

theorem strContains_nil (s : RStr) : strContains s [] = true := by
  cases s with
  | nil => rfl
  | cons c rest => simp [strContains, listStartsWith]

/-- `count` of a filtered list. -/
theorem count_filter_ite {α : Type} [DecidableEq α] (p : α → Bool) (a : α) (l : List α) :
    (l.filter p).count a = if p a then l.count a else 0 := by
  induction l with
  | nil => simp
  | cons b l ih =>
    by_cases hb : p b = true <;> by_cases hab : a = b
    · subst hab; simp [List.filter_cons, hb, List.count_cons, ih]
    · simp [List.filter_cons, hb, List.count_cons, ih, hab]
    · subst hab; simp [List.filter_cons, hb, List.count_cons, ih]
    · simp [List.filter_cons, hb, List.count_cons, ih, hab]

/-! ### Claim theorems: store queries and state -/

/-- C10: `save_to_file` never modifies the in-memory record sequence — the
buffer after a save is the buffer before it (the Rust receiver is `&self`,
so only the backing file changes, to the serialized buffer). -/
theorem save_to_file_preserves_buffer (tl : TodoList) :
    (tl.save_to_file).buffer = tl.buffer ∧
      (tl.save_to_file).file = serializeTodoList tl.buffer :=
  ⟨rfl, rfl⟩

/-- C7: after `clear` the in-memory sequence is empty and the backing file is
truncated to the zero-length empty state, and a second `clear` immediately
after succeeds and leaves the store and file in that same empty state. -/
theorem clear_empties_and_is_idempotent (tl : TodoList) :
    (tl.clear).buffer = [] ∧ (tl.clear).file = [] ∧ tl.clear.clear = tl.clear :=
  ⟨rfl, rfl, rfl⟩

/-- C5: opening a store whose file content is empty or whitespace-only
succeeds and yields an empty record sequence. -/
theorem open_whitespace_ok (content : RStr)
    (h : (rustTrim content).isEmpty = true) :
    TodoList.openStore content = .ok ⟨[], content⟩ := by
  simp [TodoList.openStore, h]

theorem open_whitespace_ok_witness :
    TodoList.openStore [] = .ok ⟨[], []⟩ ∧
      TodoList.openStore " \t\n ".toList = .ok ⟨[], " \t\n ".toList⟩ ∧
      TodoList.openStore " \u00A0\u2028\u3000\t ".toList =
        .ok ⟨[], " \u00A0\u2028\u3000\t ".toList⟩ :=
  ⟨open_whitespace_ok [] (by decide), open_whitespace_ok " \t\n ".toList (by decide),
    open_whitespace_ok " \u00A0\u2028\u3000\t ".toList (by decide)⟩

/-- C9: the empty keyword matches every record (every lowercased name
contains the empty string), so the search returns the whole buffer in store
order. -/
theorem find_items_empty_keyword (tl : TodoList) :
    tl.find_items_by_name [] = tl.buffer := by
  show tl.buffer.filter _ = tl.buffer
  exact List.filter_eq_self.mpr fun a _ => strContains_nil _

/-- C4: `find_items_by_name` returns exactly the records whose lowercased
name contains the lowercased keyword as a substring — a subsequence of the
buffer (hence in store order, possibly empty), with membership and
multiplicity characterized by the substring test; the store itself is not
modified (the model is a pure function of the buffer). -/
theorem find_items_by_name_spec (tl : TodoList) (keyword : RStr) :
    (tl.find_items_by_name keyword).Sublist tl.buffer ∧
    (∀ it : TodoItem, it ∈ tl.find_items_by_name keyword ↔
      it ∈ tl.buffer ∧
        strContains (rustToLowercase it.name) (rustToLowercase keyword) = true) ∧
    (∀ it : TodoItem, (tl.find_items_by_name keyword).count it =
      if strContains (rustToLowercase it.name) (rustToLowercase keyword)
      then tl.buffer.count it else 0) := by
  refine ⟨List.filter_sublist _, fun it => ?_, fun it => ?_⟩
  · show it ∈ tl.buffer.filter _ ↔ _
    simp [List.mem_filter]
  · show (tl.buffer.filter _).count it = _
    exact count_filter_ite _ it tl.buffer

/-! ### Claim theorems: rendering -/

/-- C8 counterexample: the rendering of the record `(A, B, 0)` is
`"Item: A \nContent: B \n(Priority: 0)"`, which differs from the claimed
`"Item: A\nContent: B\n(Priority: 0)"`: the format string of `main.rs` has a
space before each of the two newlines. -/
theorem display_counterexample :
    TodoItem.display ⟨['A'], ['B'], 0⟩ = "Item: A \nContent: B \n(Priority: 0)".toList ∧
      TodoItem.display ⟨['A'], ['B'], 0⟩ ≠ "Item: A\nContent: B\n(Priority: 0)".toList := by
  constructor
  · decide
  · decide

/-- C8 (amended): for every record the rendering is exactly
`"Item: {name} \nContent: {content} \n(Priority: {priority})"` — the claimed
template with a space inserted before each newline — with the field values
substituted and no other characters. -/
theorem display_amended (it : TodoItem) : it.display = displaySpecAmended it := by
  unfold TodoItem.display displaySpecAmended
  have h1 : " \nContent: ".toList = " \n".toList ++ "Content: ".toList := by decide
  have h2 : " \n(Priority: ".toList = " \n".toList ++ "(Priority: ".toList := by decide
  have h3 : [')'] = ")".toList := by decide
  rw [h1, h2, h3]
  simp [List.append_assoc]

/-! ### Claim theorems: add_item -/

/-- C2 (code bug): `add_item` compares `DefaultHasher` (SipHash-1-3) values,
not field equality. The two records below differ in their `name` field yet
collide under the hasher, so adding the second to a store holding the first
is rejected (`false`, store unchanged) even though it is not a duplicate;
a genuine duplicate is also rejected, as the claim states. -/
theorem add_item_hash_collision :
    (⟨"1d131e349700bb58".toList, [], 0⟩ : TodoItem) ≠ ⟨"56883298999ac4ee".toList, [], 0⟩ ∧
    calculate_hash ⟨"1d131e349700bb58".toList, [], 0⟩ =
      calculate_hash ⟨"56883298999ac4ee".toList, [], 0⟩ ∧
    TodoList.add_item ⟨[⟨"1d131e349700bb58".toList, [], 0⟩], []⟩
        ⟨"56883298999ac4ee".toList, [], 0⟩ =
      (false, ⟨[⟨"1d131e349700bb58".toList, [], 0⟩], []⟩) ∧
    TodoList.add_item ⟨[⟨"1d131e349700bb58".toList, [], 0⟩], []⟩
        ⟨"1d131e349700bb58".toList, [], 0⟩ =
      (false, ⟨[⟨"1d131e349700bb58".toList, [], 0⟩], []⟩) := by
  refine ⟨by decide, by decide, by decide, by decide⟩

/-! ### Claim theorems: open on invalid content -/

/-- C3 counterexample: deleting name `a` from records named `a, b, c`
produces the records named `c, b`: the first occurrence is removed, but
`swap_remove` moves the last record into its slot, so the remaining records
are not in their original relative order `b, c`. -/
theorem del_by_name_counterexample :
    (TodoList.del_by_name ⟨[⟨['a'], [], 0⟩, ⟨['b'], [], 0⟩, ⟨['c'], [], 0⟩], []⟩ ['a']).buffer
        = [⟨['c'], [], 0⟩, ⟨['b'], [], 0⟩] ∧
      ([⟨['c'], [], 0⟩, ⟨['b'], [], 0⟩] : List TodoItem) ≠
        [⟨['b'], [], 0⟩, ⟨['c'], [], 0⟩] :=
  ⟨by decide, by decide⟩

/-- C3 (amended): when some record's name matches and the first occurrence is
at index `i`, `del_by_name` removes exactly that occurrence and keeps every
other record — the result is a permutation of `eraseIdx i` and is one
shorter — but the relative order of the remaining records is preserved only
when the first match is the last record: otherwise the last record moves into
the removed slot (`swap_remove`). -/
theorem del_by_name_amended (tl : TodoList) (name : RStr) (i : Nat)
    (h : tl.buffer.findIdx? (fun item => item.name == name) = some i) :
    ∃ last, tl.buffer.getLast? = some last ∧
      ((tl.del_by_name name).buffer).Perm (tl.buffer.eraseIdx i) ∧
      (tl.del_by_name name).buffer.length + 1 = tl.buffer.length ∧
      (tl.del_by_name name).buffer =
        (if i + 1 = tl.buffer.length then tl.buffer.dropLast
         else tl.buffer.take i ++ last :: (tl.buffer.drop (i + 1)).dropLast) := by
  obtain ⟨hi, hp, hfirst⟩ := List.findIdx?_eq_some_iff_getElem.mp h
  have hne : tl.buffer ≠ [] :=
    List.ne_nil_of_length_pos (Nat.lt_of_le_of_lt (Nat.zero_le i) hi)
  have hlast := List.getLast?_eq_getLast tl.buffer hne
  refine ⟨tl.buffer.getLast hne, hlast, ?_⟩
  have hdel : (tl.del_by_name name).buffer = swapRemove tl.buffer i := by
    unfold TodoList.del_by_name
    rw [h]
  have hsw : swapRemove tl.buffer i =
      (tl.buffer.set i (tl.buffer.getLast hne)).dropLast := by
    unfold swapRemove
    rw [hlast]
  have hset : tl.buffer.set i (tl.buffer.getLast hne) =
      tl.buffer.take i ++ tl.buffer.getLast hne :: tl.buffer.drop (i + 1) :=
    List.set_eq_take_cons_drop _ hi
  by_cases hend : i + 1 = tl.buffer.length
  · have hdrop : tl.buffer.drop (i + 1) = [] := by
      rw [List.drop_eq_nil_iff]; omega
    have hres : (tl.del_by_name name).buffer = tl.buffer.take i := by
      rw [hdel, hsw, hset, hdrop, List.dropLast_append_cons]
      simp
    have hdl : tl.buffer.dropLast = tl.buffer.take i := by
      rw [List.dropLast_eq_take]
      congr 1
      omega
    have herase : tl.buffer.eraseIdx i = tl.buffer.take i := by
      rw [List.eraseIdx_eq_take_drop_succ, hdrop, List.append_nil]
    refine ⟨?_, ?_, ?_⟩
    · rw [hres, herase]
    · rw [hres]
      simp [List.length_take]
      omega
    · rw [hres, if_pos hend, hdl]
  · have hd_ne : tl.buffer.drop (i + 1) ≠ [] := by
      rw [Ne, List.drop_eq_nil_iff]
      omega
    obtain ⟨x, hx⟩ : ∃ x, (tl.buffer.drop (i + 1)).getLast? = some x := by
      cases hq : (tl.buffer.drop (i + 1)).getLast? with
      | none => exact absurd (List.getLast?_eq_none_iff.mp hq) hd_ne
      | some x => exact ⟨x, rfl⟩
    have h1 : tl.buffer.getLast? =
        ((tl.buffer.drop (i + 1)).getLast?).or ((tl.buffer.take (i + 1)).getLast?) := by
      conv_lhs => rw [← List.take_append_drop (i + 1) tl.buffer]
      exact List.getLast?_append
    rw [hlast, hx, Option.or_some] at h1
    have hx2 : (tl.buffer.drop (i + 1)).getLast? = some (tl.buffer.getLast hne) := by
      rw [hx, ← Option.some.injEq, ← h1]
    have hdl_cons : (tl.buffer.getLast hne :: tl.buffer.drop (i + 1)).dropLast =
        tl.buffer.getLast hne :: (tl.buffer.drop (i + 1)).dropLast :=
      List.dropLast_cons_of_ne_nil hd_ne
    have hres : (tl.del_by_name name).buffer =
        tl.buffer.take i ++ tl.buffer.getLast hne :: (tl.buffer.drop (i + 1)).dropLast := by
      rw [hdel, hsw, hset, List.dropLast_append_cons, hdl_cons]
    have herase : tl.buffer.eraseIdx i =
        tl.buffer.take i ++
          ((tl.buffer.drop (i + 1)).dropLast ++ [tl.buffer.getLast hne]) := by
      rw [List.eraseIdx_eq_take_drop_succ]
      congr 1
      exact (List.dropLast_append_getLast? _ (Option.mem_def.mpr hx2)).symm
    refine ⟨?_, ?_, ?_⟩
    · rw [hres, herase]
      exact List.Perm.append_left _ ((List.perm_append_singleton _ _).symm)
    · rw [hres]
      simp [List.length_take, List.length_dropLast, List.length_drop]
      omega
    · rw [hres, if_neg hend]

theorem del_by_name_amended_witness :
    ∃ last,
      (TodoList.mk [⟨['a'], [], 0⟩, ⟨['b'], [], 0⟩, ⟨['c'], [], 0⟩] []).buffer.getLast?
          = some last ∧
      ((TodoList.del_by_name ⟨[⟨['a'], [], 0⟩, ⟨['b'], [], 0⟩, ⟨['c'], [], 0⟩], []⟩
          ['a']).buffer).Perm
        ((TodoList.mk [⟨['a'], [], 0⟩, ⟨['b'], [], 0⟩, ⟨['c'], [], 0⟩] []).buffer.eraseIdx 0) ∧
      (TodoList.del_by_name ⟨[⟨['a'], [], 0⟩, ⟨['b'], [], 0⟩, ⟨['c'], [], 0⟩], []⟩
          ['a']).buffer.length + 1 =
        (TodoList.mk [⟨['a'], [], 0⟩, ⟨['b'], [], 0⟩, ⟨['c'], [], 0⟩] []).buffer.length ∧
      (TodoList.del_by_name ⟨[⟨['a'], [], 0⟩, ⟨['b'], [], 0⟩, ⟨['c'], [], 0⟩], []⟩
          ['a']).buffer =
        (if 0 + 1 = (TodoList.mk [⟨['a'], [], 0⟩, ⟨['b'], [], 0⟩, ⟨['c'], [], 0⟩] []).buffer.length
         then (TodoList.mk [⟨['a'], [], 0⟩, ⟨['b'], [], 0⟩, ⟨['c'], [], 0⟩] []).buffer.dropLast
         else (TodoList.mk [⟨['a'], [], 0⟩, ⟨['b'], [], 0⟩, ⟨['c'], [], 0⟩] []).buffer.take 0 ++
           last ::
             ((TodoList.mk [⟨['a'], [], 0⟩, ⟨['b'], [], 0⟩, ⟨['c'], [], 0⟩] []).buffer.drop
                 (0 + 1)).dropLast) :=
  del_by_name_amended ⟨[⟨['a'], [], 0⟩, ⟨['b'], [], 0⟩, ⟨['c'], [], 0⟩], []⟩ ['a'] 0 (by decide)

/-! ### Round-trip machinery: strings -/

theorem exceptBind_ok {ε α β : Type} (a : α) (f : α → Except ε β) :
    (Except.ok a : Except ε α) >>= f = f a := rfl

theorem hexVal_hexDigitChar : ∀ n, n < 16 → hexVal (hexDigitChar n) = some n := by decide

theorem parseStringBodyAux_escapeChar (f : Nat) (c : Char) (k : RStr) :
    parseStringBodyAux (f + 1) (escapeChar c ++ k) =
      (fun p => (c :: p.1, p.2)) <$> parseStringBodyAux f k := by
  by_cases h1 : c = '"'
  · subst h1; simp only [escapeChar]; norm_num; rw [parseStringBodyAux.eq_def]; simp
  by_cases h2 : c = '\\'
  · subst h2; simp only [escapeChar]; norm_num; rw [parseStringBodyAux.eq_def]; simp
  by_cases h3 : c = '\x08'
  · subst h3; simp only [escapeChar]; norm_num; rw [parseStringBodyAux.eq_def]; simp
  by_cases h4 : c = '\x09'
  · subst h4; simp only [escapeChar]; norm_num; rw [parseStringBodyAux.eq_def]; simp
  by_cases h5 : c = '\x0a'
  · subst h5; simp only [escapeChar]; norm_num; rw [parseStringBodyAux.eq_def]; simp
  by_cases h6 : c = '\x0c'
  · subst h6; simp only [escapeChar]; norm_num; rw [parseStringBodyAux.eq_def]; simp
  by_cases h7 : c = '\x0d'
  · subst h7; simp only [escapeChar]; norm_num; rw [parseStringBodyAux.eq_def]; simp
  by_cases h9 : c.toNat < 0x20
  · have hesc : escapeChar c =
        ['\\', 'u', '0', '0', hexDigitChar (c.toNat / 16), hexDigitChar (c.toNat % 16)] := by
      simp [escapeChar, h1, h2, h3, h4, h5, h6, h7, h9]
    have e0 : hexVal '0' = some 0 := by decide
    have e1 := hexVal_hexDigitChar (c.toNat / 16) (by omega)
    have e2 := hexVal_hexDigitChar (c.toNat % 16) (by omega)
    have hn : c.toNat / 16 * 16 + c.toNat % 16 = c.toNat := by omega
    have hlt : c.toNat < 55296 := by omega
    rw [hesc]
    simp only [List.cons_append, List.nil_append]
    rw [parseStringBodyAux.eq_def]
    simp [decodeUEscape, hex4, e0, e1, e2, hn, hlt]
  · have hesc : escapeChar c = [c] := by
      simp [escapeChar, h1, h2, h3, h4, h5, h6, h7, h9]
    rw [hesc]
    simp only [List.cons_append, List.nil_append]
    rw [parseStringBodyAux.eq_def]
    simp [h1, h2, h9]

theorem parseStringBodyAux_escapeString (s rest : RStr) (f : Nat) :
    parseStringBodyAux (s.length + f + 1) (escapeString s ++ ('"' :: rest)) =
      .ok (s, rest) := by
  induction s generalizing f with
  | nil =>
    rw [show ([] : RStr).length + f + 1 = f + 1 from by simp]
    show parseStringBodyAux (f + 1) ('"' :: rest) = _
    rw [parseStringBodyAux.eq_def]
    simp
  | cons c s ih =>
    rw [show (c :: s).length + f + 1 = (s.length + f + 1) + 1 from by simp; omega]
    show parseStringBodyAux ((s.length + f + 1) + 1)
      ((escapeChar c ++ escapeString s) ++ ('"' :: rest)) = _
    rw [List.append_assoc, parseStringBodyAux_escapeChar, ih]
    rfl

theorem escapeChar_length_pos (c : Char) : 1 ≤ (escapeChar c).length := by
  simp only [escapeChar]
  split_ifs <;> simp

theorem escapeString_length_ge (s : RStr) : s.length ≤ (escapeString s).length := by
  induction s with
  | nil => simp [escapeString]
  | cons c s ih =>
    show (c :: s).length ≤ (escapeChar c ++ escapeString s).length
    have := escapeChar_length_pos c
    simp only [List.length_cons, List.length_append]
    omega

theorem parseJsonString_quote (s r : RStr) :
    parseJsonString (quoteString s ++ r) = .ok (s, r) := by
  have hshape : quoteString s ++ r = '"' :: (escapeString s ++ ('"' :: r)) := by
    simp [quoteString]
  rw [hshape]
  show parseStringBody (escapeString s ++ ('"' :: r)) = _
  unfold parseStringBody
  rw [show (escapeString s ++ ('"' :: r)).length + 1
      = s.length + ((escapeString s).length - s.length + r.length + 1) + 1 from by
    have h := escapeString_length_ge s
    simp only [List.length_append, List.length_cons]
    omega]
  exact parseStringBodyAux_escapeString s r _

theorem skipWs_cons {c : Char} (h : isJsonWs c = false) (s : RStr) :
    skipWs (c :: s) = c :: s := by
  simp [skipWs, List.dropWhile_cons, h]

theorem expectChar_cons {c : Char} (h : isJsonWs c = false) (s : RStr) :
    expectChar c (c :: s) = .ok s := by
  simp [expectChar, skipWs_cons h]

theorem skipWs_quote (s r : RStr) : skipWs (quoteString s ++ r) = quoteString s ++ r := by
  have hshape : quoteString s ++ r = '"' :: (escapeString s ++ ('"' :: r)) := by
    simp [quoteString]
  rw [hshape, skipWs_cons (by decide)]

/-! ### Round-trip machinery: numerals -/

theorem digitChar_isDigit : ∀ n, n < 10 → (Char.ofNat (48 + n)).isDigit = true := by decide

theorem digitChar_toNat : ∀ n, n < 10 → (Char.ofNat (48 + n)).toNat = 48 + n := by decide

theorem digitChar_ne_zero : ∀ n, n < 10 → 0 < n → Char.ofNat (48 + n) ≠ '0' := by decide

theorem digit_not_ws (c : Char) (h : c.isDigit = true) : isJsonWs c = false := by
  by_cases h1 : c = ' '
  · rw [h1] at h; exact absurd h (by decide)
  by_cases h2 : c = '\t'
  · rw [h2] at h; exact absurd h (by decide)
  by_cases h3 : c = '\n'
  · rw [h3] at h; exact absurd h (by decide)
  by_cases h4 : c = '\r'
  · rw [h4] at h; exact absurd h (by decide)
  simp [isJsonWs, h1, h2, h3, h4]

theorem natDigitsAux_all_digits :
    ∀ fuel n, ∀ c ∈ natDigitsAux fuel n, c.isDigit = true := by
  intro fuel
  induction fuel with
  | zero =>
    intro n c hc
    simp [natDigitsAux] at hc
    subst hc
    exact digitChar_isDigit _ (Nat.mod_lt _ (by norm_num))
  | succ fuel ih =>
    intro n c hc
    by_cases h : n < 10
    · simp [natDigitsAux, h] at hc
      subst hc
      exact digitChar_isDigit _ h
    · simp [natDigitsAux, h] at hc
      rcases hc with hc | hc
      · exact ih _ _ hc
      · subst hc
        exact digitChar_isDigit _ (Nat.mod_lt _ (by norm_num))

theorem natDigitsAux_ne_nil : ∀ fuel n, natDigitsAux fuel n ≠ [] := by
  intro fuel n
  cases fuel with
  | zero => simp [natDigitsAux]
  | succ fuel => by_cases h : n < 10 <;> simp [natDigitsAux, h]

theorem digitsToNat_append_digit (ds : RStr) (c : Char) :
    digitsToNat (ds ++ [c]) = digitsToNat ds * 10 + (c.toNat - 48) := by
  simp [digitsToNat, List.foldl_append]

theorem digitsToNat_natDigitsAux :
    ∀ fuel n, n ≤ fuel → digitsToNat (natDigitsAux fuel n) = n := by
  intro fuel
  induction fuel with
  | zero =>
    intro n hn
    have h0 : n = 0 := Nat.le_zero.mp hn
    subst h0
    decide
  | succ fuel ih =>
    intro n hn
    by_cases h : n < 10
    · have ht := digitChar_toNat n h
      simp [natDigitsAux, h, digitsToNat, ht]
    · rw [natDigitsAux]
      rw [if_neg h, digitsToNat_append_digit, ih (n / 10) (by omega),
        digitChar_toNat (n % 10) (by omega)]
      omega

theorem natDigitsAux_head_ne_zero :
    ∀ fuel n, 0 < n → n ≤ fuel → (natDigitsAux fuel n).head? ≠ some '0' := by
  intro fuel
  induction fuel with
  | zero => intro n h0 hn; omega
  | succ fuel ih =>
    intro n h0 hn
    by_cases h : n < 10
    · simp [natDigitsAux, h]
      exact digitChar_ne_zero n h h0
    · have hih := ih (n / 10) (by omega) (by omega)
      obtain ⟨d, hd⟩ : ∃ d, (natDigitsAux fuel (n / 10)).head? = some d := by
        cases hq : (natDigitsAux fuel (n / 10)).head? with
        | none => exact absurd (List.head?_eq_none_iff.mp hq) (natDigitsAux_ne_nil _ _)
        | some d => exact ⟨d, rfl⟩
      rw [natDigitsAux, if_neg h, List.head?_append, hd, Option.or_some]
      rw [hd] at hih
      exact hih

theorem takeWhile_append_all {p : Char → Bool} :
    ∀ (ds rest : RStr), (∀ c ∈ ds, p c = true) → (∀ c ∈ rest.head?, p c = false) →
      (ds ++ rest).takeWhile p = ds ∧ (ds ++ rest).dropWhile p = rest := by
  intro ds
  induction ds with
  | nil =>
    intro rest _ hrest
    cases rest with
    | nil => simp
    | cons r rs =>
      have hr := hrest r (by simp)
      simp [List.takeWhile_cons, List.dropWhile_cons, hr]
  | cons d ds ih =>
    intro rest hds hrest
    have hd := hds d (by simp)
    have hrec := ih rest (fun c hc => hds c (by simp [hc])) hrest
    simp [List.takeWhile_cons, List.dropWhile_cons, hd, hrec.1, hrec.2]

theorem parseNat_natToStr (n : Nat) (rest : RStr)
    (hrest : ∀ c ∈ rest.head?, c.isDigit = false) :
    parseNat (natToStr n ++ rest) = .ok (n, rest) := by
  have hall : ∀ c ∈ natToStr n, c.isDigit = true :=
    fun c hc => natDigitsAux_all_digits n n c hc
  have hsplit := takeWhile_append_all (natToStr n) rest hall hrest
  have hnn : natToStr n ≠ [] := natDigitsAux_ne_nil n n
  obtain ⟨d, ds2, hds⟩ := List.exists_cons_of_ne_nil hnn
  have hval : digitsToNat (natToStr n) = n := digitsToNat_natDigitsAux n n (Nat.le_refl n)
  unfold parseNat
  simp only [hsplit.1, hsplit.2]
  rw [hds]
  by_cases hn0 : n = 0
  · subst hn0
    have h00 : natToStr 0 = ['0'] := by decide
    rw [h00] at hds
    injection hds with hd1 hd2
    subst hd1
    subst hd2
    simp [show digitsToNat ['0'] = 0 from by decide]
  · have hhz : (natToStr n).head? ≠ some '0' :=
      natDigitsAux_head_ne_zero n n (by omega) (by omega)
    have hdz : d ≠ '0' := by
      intro hcontra
      apply hhz
      rw [hds, hcontra]
      rfl
    show (if d = '0' ∧ ds2 ≠ [] then Except.error "leading zero in number".toList
        else Except.ok (digitsToNat (d :: ds2), rest)) = Except.ok (n, rest)
    rw [if_neg (by simp [hdz])]
    rw [← hds, hval]

theorem intToStr_neg_shape (i : Int) (hneg : i < 0) (r : RStr) :
    intToStr i ++ r = '-' :: (natToStr i.natAbs ++ r) := by
  simp [intToStr, hneg]

theorem intToStr_nonneg_shape (i : Int) (hneg : ¬i < 0) (r : RStr) :
    intToStr i ++ r = natToStr i.toNat ++ r := by
  simp [intToStr, hneg]

theorem parseJsonI16_intToStr (i : Int) (rest : RStr)
    (hlo : -32768 ≤ i) (hhi : i ≤ 32767)
    (hrest : ∀ c ∈ rest.head?, c.isDigit = false) :
    parseJsonI16 (intToStr i ++ rest) = .ok (i, rest) := by
  by_cases hneg : i < 0
  · rw [intToStr_neg_shape i hneg]
    unfold parseJsonI16
    simp only [List.head?_cons, List.tail_cons, Option.some.injEq, if_pos]
    rw [parseNat_natToStr _ _ hrest, exceptBind_ok]
    have h1 : i.natAbs ≤ 32768 := by omega
    have h2 : -(i.natAbs : Int) = i := by omega
    simp [h1, h2, abs_of_neg hneg]
  · have hnn : natToStr i.toNat ≠ [] := natDigitsAux_ne_nil i.toNat i.toNat
    obtain ⟨d, ds2, hds⟩ := List.exists_cons_of_ne_nil hnn
    have hdig : d.isDigit = true :=
      natDigitsAux_all_digits i.toNat i.toNat d (by
        show d ∈ natToStr i.toNat
        rw [hds]
        simp)
    have hdne : ¬(natToStr i.toNat ++ rest).head? = some '-' := by
      rw [hds]
      simp only [List.cons_append, List.head?_cons, Option.some.injEq]
      intro hcontra
      rw [hcontra] at hdig
      exact absurd hdig (by decide)
    rw [intToStr_nonneg_shape i hneg]
    unfold parseJsonI16
    rw [if_neg hdne]
    rw [parseNat_natToStr _ _ hrest, exceptBind_ok]
    have h1 : i.toNat ≤ 32767 := by omega
    have h2 : (i.toNat : Int) = i := by omega
    simp [h1, h2]

theorem skipWs_intToStr (i : Int) (r : RStr) :
    skipWs (intToStr i ++ r) = intToStr i ++ r := by
  by_cases hneg : i < 0
  · rw [intToStr_neg_shape i hneg, skipWs_cons (by decide)]
  · have hnn : natToStr i.toNat ≠ [] := natDigitsAux_ne_nil i.toNat i.toNat
    obtain ⟨d, ds2, hds⟩ := List.exists_cons_of_ne_nil hnn
    have hdig : d.isDigit = true :=
      natDigitsAux_all_digits i.toNat i.toNat d (by
        show d ∈ natToStr i.toNat
        rw [hds]
        simp)
    rw [intToStr_nonneg_shape i hneg, hds]
    simp only [List.cons_append]
    rw [skipWs_cons (digit_not_ws d hdig)]

/-! ### Round-trip machinery: items and the array -/

theorem parseFieldsLoop_serialized (it : TodoItem) (rest : RStr) (f : Nat)
    (hlo : -32768 ≤ it.priority) (hhi : it.priority ≤ 32767) :
    parseFieldsLoop (f + 1 + 1 + 1)
      (quoteString "name".toList ++ (':' ::
        (quoteString it.name ++ (',' ::
          (quoteString "content".toList ++ (':' ::
            (quoteString it.content ++ (',' ::
              (quoteString "priority".toList ++ (':' ::
                (intToStr it.priority ++ ('\x7d' :: rest))))))))))))
      none none none = .ok (it, rest) := by
  have hrest2 : ∀ c ∈ (('\x7d' :: rest) : RStr).head?, c.isDigit = false := by
    intro c hc
    simp at hc
    subst hc
    decide
  have hcn : ¬("content".toList = "name".toList) := by decide
  have hpn : ¬("priority".toList = "name".toList) := by decide
  have hpc : ¬("priority".toList = "content".toList) := by decide
  simp [parseFieldsLoop, parseOneField, exceptBind_ok, skipWs_quote,
    parseJsonString_quote, skipWs_intToStr, hcn, hpn, hpc,
    expectChar_cons (show isJsonWs ':' = false from by decide),
    skipWs_cons (show isJsonWs ',' = false from by decide),
    skipWs_cons (show isJsonWs '\x7d' = false from by decide),
    parseJsonI16_intToStr it.priority ('\x7d' :: rest) hlo hhi hrest2]

theorem parseItem_serializeItem (it : TodoItem) (rest : RStr)
    (hlo : -32768 ≤ it.priority) (hhi : it.priority ≤ 32767) :
    parseItem (serializeItem it ++ rest) = .ok (it, rest) := by
  have hshape : serializeItem it ++ rest =
      '\x7b' :: (quoteString "name".toList ++ (':' ::
        (quoteString it.name ++ (',' ::
          (quoteString "content".toList ++ (':' ::
            (quoteString it.content ++ (',' ::
              (quoteString "priority".toList ++ (':' ::
                (intToStr it.priority ++ ('\x7d' :: rest)))))))))))) := by
    simp [serializeItem, List.append_assoc]
  rw [hshape]
  unfold parseItem
  rw [expectChar_cons (by decide), exceptBind_ok]
  have hlen : 2 ≤ (quoteString "name".toList ++ (':' ::
      (quoteString it.name ++ (',' ::
        (quoteString "content".toList ++ (':' ::
          (quoteString it.content ++ (',' ::
            (quoteString "priority".toList ++ (':' ::
              (intToStr it.priority ++ ('\x7d' :: rest)))))))))))).length := by
    simp only [quoteString, List.length_append, List.length_cons]
    omega
  rw [show (quoteString "name".toList ++ (':' ::
      (quoteString it.name ++ (',' ::
        (quoteString "content".toList ++ (':' ::
          (quoteString it.content ++ (',' ::
            (quoteString "priority".toList ++ (':' ::
              (intToStr it.priority ++ ('\x7d' :: rest)))))))))))).length + 1 =
      ((quoteString "name".toList ++ (':' ::
        (quoteString it.name ++ (',' ::
          (quoteString "content".toList ++ (':' ::
            (quoteString it.content ++ (',' ::
              (quoteString "priority".toList ++ (':' ::
                (intToStr it.priority ++ ('\x7d' :: rest)))))))))))).length - 2)
        + 1 + 1 + 1 from by omega]
  exact parseFieldsLoop_serialized it rest _ hlo hhi

theorem serializeItems_length_ge : ∀ l : List TodoItem, l.length ≤ (serializeItems l).length := by
  intro l
  induction l with
  | nil => simp [serializeItems]
  | cons it l ih =>
    cases l with
    | nil => simp [serializeItems, serializeItem]
    | cons it2 l2 =>
      rw [show serializeItems (it :: it2 :: l2) =
          serializeItem it ++ [','] ++ serializeItems (it2 :: l2) from rfl]
      simp only [List.length_append, List.length_cons]
      have h1 : 1 ≤ (serializeItem it).length := by simp [serializeItem]
      simp only [List.length_cons] at ih ⊢
      omega

theorem parseItemsLoop_serializeItems :
    ∀ (l : List TodoItem) (fuel : Nat) (rest : RStr),
      l ≠ [] → l.length ≤ fuel →
      (∀ it ∈ l, -32768 ≤ it.priority ∧ it.priority ≤ 32767) →
      parseItemsLoop fuel (serializeItems l ++ (']' :: rest)) = .ok (l, rest) := by
  intro l
  induction l with
  | nil => intro fuel rest h; exact absurd rfl h
  | cons it l ih =>
    intro fuel rest _ hfuel hrange
    cases fuel with
    | zero => simp at hfuel
    | succ fuel =>
      cases l with
      | nil =>
        show parseItemsLoop (fuel + 1) (serializeItem it ++ (']' :: rest)) = .ok ([it], rest)
        simp only [parseItemsLoop]
        rw [parseItem_serializeItem it _ (hrange it (by simp)).1 (hrange it (by simp)).2,
          exceptBind_ok]
        rw [skipWs_cons (by decide)]
        simp
      | cons it2 l2 =>
        have hs : serializeItems (it :: it2 :: l2) ++ (']' :: rest) =
            serializeItem it ++ (',' :: (serializeItems (it2 :: l2) ++ (']' :: rest))) := by
          rw [show serializeItems (it :: it2 :: l2) =
              serializeItem it ++ [','] ++ serializeItems (it2 :: l2) from rfl]
          simp [List.append_assoc]
        rw [hs]
        simp only [parseItemsLoop]
        rw [parseItem_serializeItem it _ (hrange it (by simp)).1 (hrange it (by simp)).2,
          exceptBind_ok]
        rw [skipWs_cons (by decide)]
        have hih := ih fuel rest (by simp)
          (by simp only [List.length_cons] at hfuel ⊢; omega)
          (fun x hx => hrange x (by simp [hx]))
        simp [hih, exceptBind_ok]

theorem deserialize_serializeTodoList (l : List TodoItem)
    (hrange : ∀ it ∈ l, -32768 ≤ it.priority ∧ it.priority ≤ 32767) :
    deserialize (serializeTodoList l) = .ok l := by
  cases l with
  | nil => decide
  | cons it l2 =>
    have hshape : serializeTodoList (it :: l2) =
        '[' :: (serializeItems (it :: l2) ++ (']' :: ([] : RStr))) := by
      simp [serializeTodoList]
    have hhead : (serializeItems (it :: l2)).head? = some '\x7b' := by
      cases l2 <;> simp [serializeItems, serializeItem]
    obtain ⟨t, ht⟩ : ∃ t, serializeItems (it :: l2) = '\x7b' :: t := by
      cases hq : serializeItems (it :: l2) with
      | nil => rw [hq] at hhead; exact absurd hhead (by simp)
      | cons a t =>
        rw [hq] at hhead
        simp only [List.head?_cons, Option.some.injEq] at hhead
        exact ⟨t, by rw [hhead]⟩
    have hge := serializeItems_length_ge (it :: l2)
    have hloop := parseItemsLoop_serializeItems (it :: l2)
      ((serializeItems (it :: l2) ++ (']' :: ([] : RStr))).length + 1) []
      (by simp)
      (by simp only [List.length_append, List.length_cons] at hge ⊢; omega)
      hrange
    rw [hshape]
    unfold deserialize
    rw [expectChar_cons (by decide), exceptBind_ok]
    have hsk : skipWs (serializeItems (it :: l2) ++ (']' :: ([] : RStr))) =
        serializeItems (it :: l2) ++ (']' :: ([] : RStr)) := by
      rw [ht]
      simp only [List.cons_append]
      exact skipWs_cons (by decide) _
    rw [hsk, ht]
    simp only [List.cons_append]
    rw [ht] at hloop
    simp only [List.cons_append, List.length_cons, List.length_append,
      List.length_nil] at hloop ⊢
    rw [hloop, exceptBind_ok]
    simp [skipWs]

/-! ### Claim theorems: round-trip persistence -/

theorem rustTrim_cons_not_ws {c : Char} (h : rustIsWhitespace c = false) (t : RStr) :
    (rustTrim (c :: t)).isEmpty = false := by
  unfold rustTrim
  rw [List.dropWhile_cons, if_neg (by simp [h])]
  have hne : ((c :: t).reverse.dropWhile rustIsWhitespace).reverse ≠ [] := by
    intro hcon
    have h2 : (c :: t).reverse.dropWhile rustIsWhitespace = [] := by
      have := congrArg List.reverse hcon
      simpa using this
    have h3 := List.dropWhile_eq_nil_iff.mp h2
    have h4 : c ∈ (c :: t).reverse := by simp
    have h5 := h3 c h4
    rw [h] at h5
    exact Bool.false_ne_true h5
  simpa [List.isEmpty_iff] using hne

/-- C1: saving a store with a non-empty record sequence (serializing the full
sequence to JSON, truncating the file, writing the payload) and then opening
from the same file content yields a store whose record sequence is equal to
the saved one — same elements, same order. The priorities are `i16` values,
stated here as an explicit range hypothesis on the `Int` model. -/
theorem save_open_roundtrip (tl : TodoList) (hne : tl.buffer ≠ [])
    (hrange : ∀ it ∈ tl.buffer, -32768 ≤ it.priority ∧ it.priority ≤ 32767) :
    TodoList.openStore (tl.save_to_file).file =
      .ok ⟨tl.buffer, (tl.save_to_file).file⟩ := by
  obtain ⟨it, l2, hb⟩ := List.exists_cons_of_ne_nil hne
  have hfile : (tl.save_to_file).file = serializeTodoList tl.buffer := rfl
  have hshape : serializeTodoList tl.buffer =
      '[' :: (serializeItems tl.buffer ++ [']']) := by
    simp [serializeTodoList]
  have hemp : (rustTrim (serializeTodoList tl.buffer)).isEmpty = false := by
    rw [hshape]
    exact rustTrim_cons_not_ws (by decide) _
  unfold TodoList.openStore
  rw [hfile, hemp]
  rw [deserialize_serializeTodoList tl.buffer hrange]
  simp

theorem save_open_roundtrip_witness :
    TodoList.openStore ((TodoList.save_to_file ⟨[⟨['a'], ['b'], -5⟩], ['x']⟩).file) =
      .ok ⟨[⟨['a'], ['b'], -5⟩], (TodoList.save_to_file ⟨[⟨['a'], ['b'], -5⟩], ['x']⟩).file⟩ :=
  save_open_roundtrip ⟨[⟨['a'], ['b'], -5⟩], ['x']⟩ (by decide) (by decide)
